import Mathlib

/-!
Shallow embedding of the core of the `rust_nmea_router` repository
(`src/src/vessel_monitor.rs`, `src/src/time_monitor.rs`, `src/src/stream_reader.rs`,
`src/src/environmental_monitor.rs`, the PGN decoders under `src/src/pgns` and
`src/nmea2k/src/pgns`, and the glue in `src/src/main.rs` /
`src/src/vessel_status_handler.rs`), together with proofs and refutations of the
specification claims about it.

Modelling conventions:
* Rust `f64` values are modelled as real numbers (`ℝ`); IEEE rounding is abstracted.
  Where a float is cast to an integer (`as usize`), the model floors the exact value.
* `Instant` timestamps are modelled as integers counting monotonic milliseconds;
  `Duration` constants become millisecond literals.  `Instant::duration_since`
  saturates at zero, modelled by `durationSince`.  A Rust function that calls
  `Instant::now()` several times in one body is modelled with a single `now`
  parameter (the calls are nanoseconds apart in the source).
* `VecDeque` buffers become Lean lists with the front of the deque at the head.
* Byte buffers (`&[u8]`) become `List ℕ` (each entry a byte value).
-/

/-- `Instant::duration_since` / `SystemTime` difference in ms, saturating at zero
(the 2018+ `Instant::duration_since` semantics). -/
def durationSince (a b : ℤ) : ℤ := max 0 (a - b)

/-- `u16::from_le_bytes` on two byte values. -/
def u16_from_le (b0 b1 : ℕ) : ℕ := b0 + 256 * b1

/-- `i16::from_le_bytes` on two byte values, as a mathematical integer. -/
def i16_from_le (b0 b1 : ℕ) : ℤ :=
  let v : ℤ := (b0 : ℤ) + 256 * b1
  if v < 32768 then v else v - 65536

/-- Reinterpret a byte as Rust `i8` (`data[5] as i8`). -/
def i8_of_byte (b : ℕ) : ℤ := if b < 128 then (b : ℤ) else (b : ℤ) - 256

/-- `f64::to_radians`. -/
noncomputable def toRadians (d : ℝ) : ℝ := d * Real.pi / 180

/-- `f64::to_degrees`. -/
noncomputable def toDegrees (r : ℝ) : ℝ := r * 180 / Real.pi

/-- `f64::atan2(self = y, other = x)` over the reals (IEEE signed zeros do not
exist in `ℝ`, where the `x = 0` branches below coincide with the limits). -/
noncomputable def atan2 (y x : ℝ) : ℝ :=
  if 0 < x then Real.arctan (y / x)
  else if x < 0 then
    if 0 ≤ y then Real.arctan (y / x) + Real.pi else Real.arctan (y / x) - Real.pi
  else
    if 0 < y then Real.pi / 2 else if y < 0 then -(Real.pi / 2) else 0

/-- `Position` from src/src/vessel_monitor.rs. -/
structure Position where
  latitude : ℝ
  longitude : ℝ

/-- `Position::distance_to_nm` (src/src/vessel_monitor.rs lines 59-70): haversine
distance on Earth radius 6371 km, converted to nautical miles by dividing by 1.852. -/
noncomputable def Position.distance_to_nm (p other : Position) : ℝ :=
  let r : ℝ := 6371
  let dlat := toRadians (other.latitude - p.latitude)
  let dlon := toRadians (other.longitude - p.longitude)
  let lat1 := toRadians p.latitude
  let lat2 := toRadians other.latitude
  let a := Real.sin (dlat / 2) ^ 2 + Real.cos lat1 * Real.cos lat2 * Real.sin (dlon / 2) ^ 2
  let c := 2 * atan2 (Real.sqrt a) (Real.sqrt (1 - a))
  let distance_km := r * c
  distance_km / 1.852

/-! ### PGN decoders

Decoded message types, translated from `src/src/pgns/*.rs` and
`src/nmea2k/src/pgns/*.rs`.  Scaled engineering values are reals; raw field
extraction and sentinel branching operate on the byte values. -/

/-- `PositionRapidUpdate` (src/src/pgns/pgn129025.rs). -/
structure PositionRapidUpdate where
  pgn : ℕ
  latitude : ℝ
  longitude : ℝ

/-- `CogSogRapidUpdate` (src/nmea2k/src/pgns/pgn129026.rs). -/
structure CogSogRapidUpdate where
  pgn : ℕ
  sid : ℕ
  cog_reference : Bool
  cog : ℝ
  sog : ℝ

/-- `CogSogRapidUpdate::sog_knots`. -/
noncomputable def CogSogRapidUpdate.sog_knots (m : CogSogRapidUpdate) : ℝ := m.sog * 1.94384

/-- `WindReference` (src/nmea2k/src/pgns/pgn130306.rs). -/
inductive WindReference where
  | trueGroundNorth
  | magnetic
  | apparent
  | trueBoat
  | trueWater

/-- `WindData` (src/nmea2k/src/pgns/pgn130306.rs). -/
structure WindData where
  pgn : ℕ
  sid : ℕ
  speed : ℝ
  angle : ℝ
  reference : WindReference

/-- `WindData::from_bytes` (src/nmea2k/src/pgns/pgn130306.rs lines 35-53). -/
noncomputable def WindData.from_bytes (data : List ℕ) : Option WindData :=
  if data.length < 6 then none
  else some
    { pgn := 130306
      sid := data.getD 0 0
      speed := (u16_from_le (data.getD 1 0) (data.getD 2 0) : ℝ) * 0.01
      angle := (u16_from_le (data.getD 3 0) (data.getD 4 0) : ℝ) * 0.0001
      reference :=
        match data.getD 5 0 % 8 with
        | 0 => WindReference.trueGroundNorth
        | 1 => WindReference.magnetic
        | 2 => WindReference.apparent
        | 3 => WindReference.trueBoat
        | 4 => WindReference.trueWater
        | _ => WindReference.apparent }

/-- `WindData::speed_knots`. -/
noncomputable def WindData.speed_knots (w : WindData) : ℝ := w.speed * 1.94384

/-- `Temperature` (src/src/pgns/pgn130312.rs). -/
structure Temperature where
  pgn : ℕ
  sid : ℕ
  inst : ℕ
  source : ℕ
  temperature : ℝ
  set_temperature : Option ℝ

/-- `Temperature::from_bytes` (src/src/pgns/pgn130312.rs lines 19-37): note that
`set_temperature` is produced without any sentinel check on the raw `u16`. -/
noncomputable def Temperature.from_bytes (data : List ℕ) : Option Temperature :=
  if data.length < 6 then none
  else
    let set_temp : Option ℝ :=
      if 8 ≤ data.length then some ((u16_from_le (data.getD 6 0) (data.getD 7 0) : ℝ) * 0.01)
      else none
    some
      { pgn := 130312
        sid := data.getD 0 0
        inst := data.getD 1 0
        source := data.getD 2 0
        temperature := (u16_from_le (data.getD 3 0) (data.getD 4 0) : ℝ) * 0.01
        set_temperature := set_temp }

/-- `Humidity` (src/src/pgns/pgn130313.rs). -/
structure Humidity where
  sid : ℕ
  inst : ℕ
  source : ℕ
  actual_humidity : ℝ
  set_humidity : Option ℝ

/-- `Humidity::from_bytes` (src/src/pgns/pgn130313.rs lines 12-40): the set-humidity
field maps the `0xFFFF` sentinel to `None`; the actual-humidity field is scaled
unconditionally. -/
noncomputable def Humidity.from_bytes (data : List ℕ) : Option Humidity :=
  if data.length < 6 then none
  else
    let actual : ℝ := (u16_from_le (data.getD 3 0) (data.getD 4 0) : ℝ) * 0.004
    let set_hum : Option ℝ :=
      if 7 ≤ data.length then
        let val := u16_from_le (data.getD 5 0) (data.getD 6 255)
        if val = 65535 then none else some ((val : ℝ) * 0.004)
      else none
    some
      { sid := data.getD 0 0
        inst := data.getD 1 0
        source := data.getD 2 0
        actual_humidity := actual
        set_humidity := set_hum }

/-- `ActualPressure` (src/src/pgns/pgn130314.rs). -/
structure ActualPressure where
  pgn : ℕ
  sid : ℕ
  inst : ℕ
  source : ℕ
  pressure : ℝ

/-- `ActualPressure::from_bytes` (src/src/pgns/pgn130314.rs lines 12-41). -/
noncomputable def ActualPressure.from_bytes (data : List ℕ) : Option ActualPressure :=
  if data.length < 6 then none
  else
    let pressure_raw : ℕ :=
      if 7 ≤ data.length then
        data.getD 3 0 + 256 * data.getD 4 0 + 65536 * data.getD 5 0 + 16777216 * data.getD 6 0
      else
        data.getD 3 0 + 256 * data.getD 4 0 + 65536 * data.getD 5 0
    some
      { pgn := 130314
        sid := data.getD 0 0
        inst := data.getD 1 0
        source := data.getD 2 0
        pressure := (pressure_raw : ℝ) }

/-- `Attitude` (src/src/pgns/pgn127257.rs). -/
structure Attitude where
  sid : ℕ
  yaw : Option ℝ
  pitch : Option ℝ
  roll : Option ℝ

/-- `Attitude::from_bytes` (src/src/pgns/pgn127257.rs lines 10-46): each `i16` field
maps the `i16::MAX = 0x7FFF` sentinel to `None`. -/
noncomputable def Attitude.from_bytes (data : List ℕ) : Option Attitude :=
  if 7 ≤ data.length then
    let yaw_raw := i16_from_le (data.getD 1 0) (data.getD 2 0)
    let pitch_raw := i16_from_le (data.getD 3 0) (data.getD 4 0)
    let roll_raw := i16_from_le (data.getD 5 0) (data.getD 6 0)
    some
      { sid := data.getD 0 0
        yaw := if yaw_raw = 32767 then none else some ((yaw_raw : ℝ) * 0.0001)
        pitch := if pitch_raw = 32767 then none else some ((pitch_raw : ℝ) * 0.0001)
        roll := if roll_raw = 32767 then none else some ((roll_raw : ℝ) * 0.0001) }
  else none

/-- `Attitude::roll_degrees`. -/
noncomputable def Attitude.roll_degrees (a : Attitude) : Option ℝ := a.roll.map toDegrees

/-- `EngineRapidUpdate` (src/src/pgns/pgn127488.rs). -/
structure EngineRapidUpdate where
  pgn : ℕ
  engine_instance : ℕ
  engine_speed : Option ℝ
  engine_boost_pressure : Option ℝ
  engine_tilt_trim : Option ℤ

/-- `EngineRapidUpdate::from_bytes` (src/src/pgns/pgn127488.rs lines 14-52):
`0xFFFF` (u16) and `-128` (i8) sentinels map to `None`. -/
noncomputable def EngineRapidUpdate.from_bytes (data : List ℕ) : Option EngineRapidUpdate :=
  if data.length < 8 then none
  else
    let speed_raw := u16_from_le (data.getD 1 0) (data.getD 2 0)
    let boost_raw := u16_from_le (data.getD 3 0) (data.getD 4 0)
    let tilt_trim := i8_of_byte (data.getD 5 0)
    some
      { pgn := 127488
        engine_instance := data.getD 0 0
        engine_speed := if speed_raw = 65535 then none else some ((speed_raw : ℝ) * 0.25)
        engine_boost_pressure := if boost_raw = 65535 then none else some ((boost_raw : ℝ) * 100)
        engine_tilt_trim := if tilt_trim = -128 then none else some tilt_trim }

/-- `EngineRapidUpdate::is_engine_running`: RPM present and `> 0`. -/
noncomputable def EngineRapidUpdate.is_engine_running (e : EngineRapidUpdate) : Bool :=
  match e.engine_speed with
  | some rpm => decide (0 < rpm)
  | none => false

/-- `HeadingReference` (src/nmea2k/src/pgns/pgn127250.rs). -/
inductive HeadingReference where
  | trueNorth
  | magnetic
  | error
  | null

/-- `VesselHeading` (src/nmea2k/src/pgns/pgn127250.rs). -/
structure VesselHeading where
  pgn : ℕ
  sid : ℕ
  heading : ℝ
  deviation : Option ℝ
  variation : Option ℝ
  reference : HeadingReference

/-- `VesselHeading::from_bytes` (src/nmea2k/src/pgns/pgn127250.rs lines 24-41):
note that `deviation` and `variation` are always wrapped in `Some`, with no
sentinel check on the raw `i16`. -/
noncomputable def VesselHeading.from_bytes (data : List ℕ) : Option VesselHeading :=
  if data.length < 8 then none
  else some
    { pgn := 127250
      sid := data.getD 0 0
      heading := (u16_from_le (data.getD 1 0) (data.getD 2 0) : ℝ) * 0.0001
      deviation := some ((i16_from_le (data.getD 3 0) (data.getD 4 0) : ℝ) * 0.0001)
      variation := some ((i16_from_le (data.getD 5 0) (data.getD 6 0) : ℝ) * 0.0001)
      reference :=
        match data.getD 7 0 % 4 with
        | 0 => HeadingReference.trueNorth
        | 1 => HeadingReference.magnetic
        | 2 => HeadingReference.error
        | _ => HeadingReference.null }

/-! ### Utilities (src/src/utilities.rs) -/

/-- Rust `f64` truncation toward zero (used by the `%` operator on floats). -/
noncomputable def rustTrunc (x : ℝ) : ℝ := if 0 ≤ x then (⌊x⌋ : ℝ) else -(⌊-x⌋ : ℝ)

/-- Rust `%` on floats: remainder with the sign of the dividend. -/
noncomputable def rustRem (a b : ℝ) : ℝ := a - b * rustTrunc (a / b)

/-- `normalize0_360` (src/src/utilities.rs). -/
noncomputable def normalize0_360 (angle : ℝ) : ℝ := rustRem (rustRem angle 360 + 360) 360

/-- `angle_diff` (src/src/utilities.rs): smallest signed difference `a - b` in degrees. -/
noncomputable def angle_diff (a b : ℝ) : ℝ :=
  let xx := rustRem (rustRem (a - b) 360 + 360) 360
  if 180 < xx then xx - 360 else if xx < -180 then xx + 360 else xx

/-- `average_angle` (src/src/utilities.rs): circular mean via the vector average. -/
noncomputable def average_angle (angles_deg : List ℝ) : ℝ :=
  let x := (angles_deg.map (fun w => Real.cos (toRadians w))).sum
  let y := (angles_deg.map (fun w => Real.sin (toRadians w))).sum
  rustRem (toDegrees (atan2 y x) + 360) 360

/-- `calculate_true_wind` (src/src/utilities.rs lines 19-48). -/
noncomputable def calculate_true_wind (apparent_wind_speed_kn apparent_wind_angle_deg boat_speed_kn : ℝ) :
    ℝ × ℝ :=
  if |boat_speed_kn| < 0.2 then (apparent_wind_speed_kn, apparent_wind_angle_deg)
  else
    let awa_rad := toRadians apparent_wind_angle_deg
    let aws := apparent_wind_speed_kn
    let bs := boat_speed_kn
    let aw_x := aws * Real.cos awa_rad
    let aw_y := aws * Real.sin awa_rad
    let tw_x := aw_x - bs
    let tw_y := aw_y
    let tw_speed := Real.sqrt (tw_x ^ 2 + tw_y ^ 2)
    let tw_angle_rad := atan2 tw_y tw_x
    (tw_speed, toDegrees tw_angle_rad)

/-! ### VesselMonitor (src/src/vessel_monitor.rs) -/

/-- `EVENT_INTERVAL = 10 s`, in ms. -/
def EVENT_INTERVAL : ℤ := 10000

/-- `MOORING_DETECTION_WINDOW = 120 s`, in ms. -/
def MOORING_DETECTION_WINDOW : ℤ := 120000

/-- `MOORING_THRESHOLD_METERS = 30.0`. -/
noncomputable def MOORING_THRESHOLD_METERS : ℝ := 30

/-- `MAX_VALID_SOG_KN = 25.0`. -/
noncomputable def MAX_VALID_SOG_KN : ℝ := 25

/-- `MAX_POSITION_DEVIATION_METERS = 100.0`. -/
noncomputable def MAX_POSITION_DEVIATION_METERS : ℝ := 100

/-- `POSITION_VALIDATION_WINDOW = 10 s`, in ms. -/
def POSITION_VALIDATION_WINDOW : ℤ := 10000

/-- `MIN_SAMPLES_FOR_VALIDATION = 10`. -/
def MIN_SAMPLES_FOR_VALIDATION : ℕ := 10

/-- `PositionSample`. -/
structure PositionSample where
  position : Position
  timestamp : ℤ

/-- `SpeedSample`. -/
structure SpeedSample where
  speed_kn : ℝ
  timestamp : ℤ

/-- `WindSample`. -/
structure WindSample where
  wind_speed_kn : ℝ
  wind_angle_deg : ℝ
  timestamp : ℤ

/-- `VesselMonitor` state.  The `rolling_median_position` field exists in the source
but is never read or written after initialisation. -/
structure VesselMonitor where
  positions : List PositionSample
  speeds : List SpeedSample
  winds : List WindSample
  last_event_time : ℤ
  engine_on : Bool
  rolling_median_position : Option Position

/-- `VesselMonitor::new` at monotonic instant `now`. -/
def VesselMonitor.new (now : ℤ) : VesselMonitor :=
  { positions := [], speeds := [], winds := [], last_event_time := now,
    engine_on := false, rolling_median_position := none }

/-- `VesselMonitor::calculate_median_position` (lines 244-272): component-wise median
of latitudes and longitudes, each sorted separately; `(0,0)` for an empty input. -/
noncomputable def calculate_median_position (positions : List Position) : Position :=
  if positions.isEmpty then { latitude := 0, longitude := 0 }
  else
    let lats := (positions.map Position.latitude).mergeSort
    let lons := (positions.map Position.longitude).mergeSort
    let mid := lats.length / 2
    let median_lat :=
      if lats.length % 2 = 0 then (lats.getD (mid - 1) 0 + lats.getD mid 0) / 2
      else lats.getD mid 0
    let median_lon :=
      if lons.length % 2 = 0 then (lons.getD (mid - 1) 0 + lons.getD mid 0) / 2
      else lons.getD mid 0
    { latitude := median_lat, longitude := median_lon }

/-- The ≤10-seconds-old position window inspected by `is_valid_position` (newest
first, walking back from the tail of the deque). -/
def VesselMonitor.recentWindow (m : VesselMonitor) (now : ℤ) : List PositionSample :=
  m.positions.reverse.takeWhile (fun s => decide (now - POSITION_VALIDATION_WINDOW ≤ s.timestamp))

/-- `VesselMonitor::is_valid_position` (lines 218-241): unconditionally accept while
the 10-second window holds fewer than `MIN_SAMPLES_FOR_VALIDATION` samples, else
accept iff the haversine distance to the component-wise median is at most 100 m. -/
noncomputable def VesselMonitor.is_valid_position (m : VesselMonitor) (now : ℤ) (position : Position) :
    Bool :=
  let recent_positions := (m.recentWindow now).map PositionSample.position
  if recent_positions.length < MIN_SAMPLES_FOR_VALIDATION then true
  else
    let median := calculate_median_position recent_positions
    decide (position.distance_to_nm median * 1852 ≤ MAX_POSITION_DEVIATION_METERS)

/-- `VesselMonitor::process_position` (lines 159-184). -/
noncomputable def VesselMonitor.process_position (m : VesselMonitor) (now : ℤ)
    (position_msg : PositionRapidUpdate) : VesselMonitor :=
  let position : Position := { latitude := position_msg.latitude, longitude := position_msg.longitude }
  if m.is_valid_position now position then
    let positions := m.positions ++ [{ position := position, timestamp := now }]
    let cutoff := now - MOORING_DETECTION_WINDOW - 30000
    { m with positions := positions.dropWhile (fun s => decide (s.timestamp < cutoff)) }
  else m

/-- `VesselMonitor::process_cog_sog` (lines 187-210). -/
noncomputable def VesselMonitor.process_cog_sog (m : VesselMonitor) (now : ℤ)
    (cog_sog_msg : CogSogRapidUpdate) : VesselMonitor :=
  let sog_kn := cog_sog_msg.sog_knots
  if decide (MAX_VALID_SOG_KN < sog_kn) then m
  else
    let speeds := m.speeds ++ [{ speed_kn := sog_kn, timestamp := now }]
    let cutoff := now - EVENT_INTERVAL - 5000
    { m with speeds := speeds.dropWhile (fun s => decide (s.timestamp < cutoff)) }

/-- `VesselMonitor::process_wind` (lines 120-156).  With no speed sample only the
cleanup runs; a stale speed sample returns early with no cleanup. -/
noncomputable def VesselMonitor.process_wind (m : VesselMonitor) (now : ℤ) (wind_msg : WindData) :
    VesselMonitor :=
  let wind_speed_kn := wind_msg.speed_knots
  let wind_angle_deg := toDegrees wind_msg.angle
  let cutoff := now - 600000 - 30000
  match m.winds, m.speeds.getLast? with
  | winds, none =>
      { m with winds := winds.dropWhile (fun s => decide (s.timestamp < cutoff)) }
  | winds, some speed_sample =>
      if decide (speed_sample.timestamp + 5000 < now) then m
      else
        let tw := calculate_true_wind wind_speed_kn wind_angle_deg speed_sample.speed_kn
        let winds := winds ++ [{ wind_speed_kn := tw.1,
                                 wind_angle_deg := normalize0_360 tw.2, timestamp := now }]
        { m with winds := winds.dropWhile (fun s => decide (s.timestamp < cutoff)) }

/-- `VesselMonitor::process_engine` (lines 213-215). -/
noncomputable def VesselMonitor.process_engine (m : VesselMonitor)
    (engine_msg : EngineRapidUpdate) : VesselMonitor :=
  { m with engine_on := engine_msg.is_engine_running }

/-- `VesselMonitor::should_generate_event` (lines 275-277). -/
def VesselMonitor.should_generate_event (m : VesselMonitor) (now : ℤ) : Bool :=
  decide (EVENT_INTERVAL ≤ durationSince now m.last_event_time)

/-- The window of position samples actually averaged by
`VesselMonitor::calculate_average_position` (lines 342-366): walking the deque from
the newest sample backwards, it stops at the first sample whose saturating distance
from `last_event_time` exceeds the window; samples older than `last_event_time`
have saturating distance zero and are therefore included. -/
def VesselMonitor.averagedWindow (m : VesselMonitor) (window : ℤ) : List PositionSample :=
  m.positions.reverse.takeWhile
    (fun p => decide (durationSince p.timestamp m.last_event_time ≤ window))

/-- `VesselMonitor::calculate_average_position` (lines 342-366). -/
noncomputable def VesselMonitor.calculate_average_position (m : VesselMonitor) (window : ℤ) :
    ℕ × Option Position :=
  let relevant := m.averagedWindow window
  let sample_count := relevant.length
  let avg_latitude := (relevant.map (fun p => p.position.latitude)).sum
  let avg_longitude := (relevant.map (fun p => p.position.longitude)).sum
  if 0 < sample_count then
    (sample_count, some { latitude := avg_latitude / sample_count, longitude := avg_longitude / sample_count })
  else (sample_count, none)

/-- `VesselMonitor::calculate_average_and_max_speed` (lines 368-392). -/
noncomputable def VesselMonitor.calculate_average_and_max_speed (m : VesselMonitor) (now window : ℤ) :
    ℕ × ℝ × ℝ :=
  let relevant := m.speeds.reverse.takeWhile (fun s => decide (now - window ≤ s.timestamp))
  let count := relevant.length
  let total := (relevant.map SpeedSample.speed_kn).sum
  let max_speed := relevant.foldl (fun mx s => if mx < s.speed_kn then s.speed_kn else mx) 0
  (count, if 0 < count then total / count else 0, max_speed)

/-- `VesselMonitor::calculate_wind_statistics` (lines 313-340). -/
noncomputable def VesselMonitor.calculate_wind_statistics (m : VesselMonitor) (now window : ℤ) :
    Option ℝ × Option ℝ × Option ℝ × Option ℝ :=
  let relevant := m.winds.reverse.takeWhile (fun w => decide (now - window ≤ w.timestamp))
  if relevant.isEmpty then (none, none, none, none)
  else
    let count : ℝ := relevant.length
    let mean_speed := (relevant.map WindSample.wind_speed_kn).sum / count
    let mean_angle := average_angle (relevant.map (fun w => toRadians w.wind_angle_deg))
    let variance_speed :=
      Real.sqrt ((relevant.map (fun w => (w.wind_speed_kn - mean_speed) ^ 2)).sum / count)
    let variance_angle :=
      Real.sqrt ((relevant.map (fun w => angle_diff w.wind_angle_deg mean_angle ^ 2)).sum / count)
    (some mean_speed, some variance_speed, some mean_angle, some variance_angle)

/-- The 120-second mooring window (insertion order preserved). -/
def VesselMonitor.mooringWindow (m : VesselMonitor) (now : ℤ) : List PositionSample :=
  m.positions.filter (fun p => decide (now - MOORING_DETECTION_WINDOW ≤ p.timestamp))

/-- `VesselMonitor::is_vessel_moored` (lines 394-429).  The count threshold is
`(recent.len() as f64 * 0.90) as usize`, i.e. `⌊9·n/10⌋` by truncation. -/
noncomputable def VesselMonitor.is_vessel_moored (m : VesselMonitor) (now : ℤ) : Bool :=
  if m.positions.length < 2 then false
  else
    let recent := m.mooringWindow now
    if recent.isEmpty then false
    else
      let avg_lat := (recent.map (fun p => p.position.latitude)).sum / recent.length
      let avg_lon := (recent.map (fun p => p.position.longitude)).sum / recent.length
      let avg_position : Position := { latitude := avg_lat, longitude := avg_lon }
      let within := recent.filter
        (fun p => decide (p.position.distance_to_nm avg_position * 1852 ≤ MOORING_THRESHOLD_METERS))
      decide (9 * recent.length / 10 ≤ within.length)

/-- `VesselStatus` (src/src/vessel_monitor.rs lines 16-29). -/
structure VesselStatus where
  current_position : Position
  average_position : Option Position
  number_of_samples : ℕ
  max_speed_kn : ℝ
  is_moored : Bool
  engine_on : Bool
  wind_speed_kn : Option ℝ
  wind_speed_variance : Option ℝ
  wind_angle_deg : Option ℝ
  wind_angle_variance : Option ℝ
  timestamp : ℤ

/-- `VesselStatus::is_valid`. -/
def VesselStatus.is_valid (s : VesselStatus) : Bool := decide (0 < s.number_of_samples)

/-- `VesselStatus::get_effective_position` (lines 36-43). -/
def VesselStatus.get_effective_position (s : VesselStatus) : Position :=
  if s.is_moored then
    match s.average_position with
    | some avg_pos => avg_pos
    | none => s.current_position
  else s.current_position

/-- `VesselMonitor::generate_status` (lines 280-311).  Returns the optional status
together with the updated monitor (`last_event_time := now` only on emission). -/
noncomputable def VesselMonitor.generate_status (m : VesselMonitor) (now : ℤ) :
    Option VesselStatus × VesselMonitor :=
  if !m.should_generate_event now || m.positions.isEmpty then (none, m)
  else
    let current_position := (m.positions.getLastD { position := ⟨0, 0⟩, timestamp := 0 }).position
    let avg := m.calculate_average_position EVENT_INTERVAL
    let speed := m.calculate_average_and_max_speed now EVENT_INTERVAL
    let is_moored := m.is_vessel_moored now
    let wind := m.calculate_wind_statistics now EVENT_INTERVAL
    let timestamp := (m.positions.getLastD { position := ⟨0, 0⟩, timestamp := 0 }).timestamp
    (some
      { current_position := current_position
        average_position := avg.2
        number_of_samples := avg.1
        max_speed_kn := speed.2.2
        is_moored := is_moored
        engine_on := m.engine_on
        wind_speed_kn := wind.1
        wind_speed_variance := wind.2.1
        wind_angle_deg := wind.2.2.1
        wind_angle_variance := wind.2.2.2
        timestamp := timestamp },
      { m with last_event_time := now })

/-! ### TimeMonitor (src/src/time_monitor.rs)

The monitor compares the local wall clock against the GNSS-sourced time.  The
conversion `NMEASystemTime::to_system_time` is collapsed into a single `nmea_ms`
input (epoch milliseconds carried by the message); `now_ms` is the wall clock at
the call, negative when the wall clock is before the Unix epoch. -/

/-- `TimeMonitor` state. -/
structure TimeMonitor where
  last_warning_time : Option ℤ
  warning_cooldown_secs : ℤ
  has_time_skew : Bool
  time_skew_threshold_ms : ℤ
  last_measured_skew_ms : ℤ
  is_initialized : Bool

/-- `TimeMonitor::new`. -/
def TimeMonitor.new (time_skew_threshold_ms : ℤ) : TimeMonitor :=
  { last_warning_time := none, warning_cooldown_secs := 10, has_time_skew := false,
    time_skew_threshold_ms := time_skew_threshold_ms, last_measured_skew_ms := 0,
    is_initialized := false }

/-- `TimeMonitor::is_time_synchronized`. -/
def TimeMonitor.is_time_synchronized (t : TimeMonitor) : Bool := !t.has_time_skew

/-- `TimeMonitor::is_valid_and_synced`. -/
def TimeMonitor.is_valid_and_synced (t : TimeMonitor) : Bool :=
  t.is_initialized && t.is_time_synchronized

/-- `TimeMonitor::process_system_time` (lines 38-79).  A wall clock before the Unix
epoch returns without touching the state.  Otherwise the skew is recorded, the
skew flag follows the threshold comparison, and the warning cooldown decides
whether `last_warning_time` advances. -/
def TimeMonitor.process_system_time (t : TimeMonitor) (now_ms nmea_ms : ℤ) : TimeMonitor :=
  if now_ms < 0 then t
  else
    let time_skew_ms := now_ms - nmea_ms
    let abs_skew := |time_skew_ms|
    if t.time_skew_threshold_ms < abs_skew then
      let should_warn :=
        match t.last_warning_time with
        | some last_warn =>
            if now_ms < last_warn then true
            else decide (t.warning_cooldown_secs ≤ (now_ms - last_warn) / 1000)
        | none => true
      { t with has_time_skew := true,
               last_warning_time := if should_warn then some now_ms else t.last_warning_time,
               is_initialized := true,
               last_measured_skew_ms := time_skew_ms }
    else
      { t with has_time_skew := false,
               is_initialized := true,
               last_measured_skew_ms := time_skew_ms }

/-! ### EnvironmentalMonitor (src/src/environmental_monitor.rs) -/

/-- A timestamped metric sample (`Sample<f64>`). -/
structure EnvSample where
  value : ℝ
  timestamp : ℤ

/-- `EnvironmentalMonitor` sample buffers (the persistence-cadence map and config
are not needed by the claims treated here). -/
structure EnvironmentalMonitor where
  pressure_samples : List EnvSample
  cabin_temp_samples : List EnvSample
  water_temp_samples : List EnvSample
  humidity_samples : List EnvSample
  wind_speed_samples : List EnvSample
  wind_dir_samples : List EnvSample
  roll_samples : List EnvSample

/-- `EnvironmentalMonitor::new` sample buffers. -/
def EnvironmentalMonitor.new : EnvironmentalMonitor :=
  { pressure_samples := [], cabin_temp_samples := [], water_temp_samples := [],
    humidity_samples := [], wind_speed_samples := [], wind_dir_samples := [],
    roll_samples := [] }

/-- `EnvironmentalMonitor::cleanup_samples` (the source omits `roll_samples`). -/
def EnvironmentalMonitor.cleanup_samples (e : EnvironmentalMonitor) (now : ℤ) :
    EnvironmentalMonitor :=
  let cutoff := now - 60000 - 10000
  let clean := fun (samples : List EnvSample) =>
    samples.dropWhile (fun s => decide (s.timestamp < cutoff))
  { e with pressure_samples := clean e.pressure_samples,
           cabin_temp_samples := clean e.cabin_temp_samples,
           water_temp_samples := clean e.water_temp_samples,
           humidity_samples := clean e.humidity_samples,
           wind_speed_samples := clean e.wind_speed_samples,
           wind_dir_samples := clean e.wind_dir_samples }

/-- `EnvironmentalMonitor::process_temperature` (lines 162-188). -/
noncomputable def EnvironmentalMonitor.process_temperature (e : EnvironmentalMonitor) (now : ℤ)
    (temp : Temperature) : EnvironmentalMonitor :=
  if temp.inst = 0 then
    let celsius := temp.temperature - 273.15
    if temp.source = 4 ∧ temp.inst = 0 then
      EnvironmentalMonitor.cleanup_samples { e with cabin_temp_samples := e.cabin_temp_samples ++ [{ value := celsius, timestamp := now }] } now
    else if temp.source = 0 ∧ temp.inst = 0 then
      EnvironmentalMonitor.cleanup_samples { e with water_temp_samples := e.water_temp_samples ++ [{ value := celsius, timestamp := now }] } now
    else e
  else e

/-- `EnvironmentalMonitor::process_wind` (lines 191-208). -/
noncomputable def EnvironmentalMonitor.process_wind (e : EnvironmentalMonitor) (now : ℤ)
    (wind : WindData) : EnvironmentalMonitor :=
  EnvironmentalMonitor.cleanup_samples
    { e with wind_speed_samples := e.wind_speed_samples ++ [{ value := wind.speed, timestamp := now }],
             wind_dir_samples := e.wind_dir_samples ++ [{ value := toDegrees wind.angle, timestamp := now }] } now

/-- `EnvironmentalMonitor::process_humidity` (lines 212-221). -/
noncomputable def EnvironmentalMonitor.process_humidity (e : EnvironmentalMonitor) (now : ℤ)
    (hum : Humidity) : EnvironmentalMonitor :=
  EnvironmentalMonitor.cleanup_samples { e with humidity_samples := e.humidity_samples ++ [{ value := hum.actual_humidity, timestamp := now }] } now

/-- `EnvironmentalMonitor::process_actual_pressure` (lines 225-239). -/
noncomputable def EnvironmentalMonitor.process_actual_pressure (e : EnvironmentalMonitor) (now : ℤ)
    (pressure : ActualPressure) : EnvironmentalMonitor :=
  if pressure.inst = 0 ∧ pressure.source = 0 then
    EnvironmentalMonitor.cleanup_samples { e with pressure_samples := e.pressure_samples ++ [{ value := pressure.pressure, timestamp := now }] } now
  else e

/-- `EnvironmentalMonitor::process_attitude` (lines 243-254). -/
noncomputable def EnvironmentalMonitor.process_attitude (e : EnvironmentalMonitor) (now : ℤ)
    (attitude : Attitude) : EnvironmentalMonitor :=
  match attitude.roll_degrees with
  | some roll_deg =>
      EnvironmentalMonitor.cleanup_samples { e with roll_samples := e.roll_samples ++ [{ value := roll_deg, timestamp := now }] } now
  | none => e

/-! ### Main-loop dispatch (src/src/main.rs) -/

/-- The decoded-message variants dispatched by `handle_message` (src/src/main.rs
lines 323-355).  `nmeaSystemTime` carries the GNSS epoch milliseconds (see the
`TimeMonitor` section); `other` stands for every variant the dispatch ignores. -/
inductive N2kMsg where
  | positionRapidUpdate (p : PositionRapidUpdate)
  | cogSogRapidUpdate (c : CogSogRapidUpdate)
  | nmeaSystemTime (nmea_ms : ℤ)
  | temperature (t : Temperature)
  | windData (w : WindData)
  | humidity (h : Humidity)
  | actualPressure (p : ActualPressure)
  | attitude (a : Attitude)
  | engineRapidUpdate (e : EngineRapidUpdate)
  | other

/-- The three monitors updated by the main loop. -/
structure Monitors where
  vessel : VesselMonitor
  time : TimeMonitor
  env : EnvironmentalMonitor

/-- `handle_message` (src/src/main.rs lines 323-355): every decoded message is fed
to its monitor unconditionally; the dispatch never consults the time monitor's
synchronization state. -/
noncomputable def handle_message (m : Monitors) (now : ℤ) (msg : N2kMsg) : Monitors :=
  match msg with
  | N2kMsg.positionRapidUpdate p => { m with vessel := m.vessel.process_position now p }
  | N2kMsg.cogSogRapidUpdate c => { m with vessel := m.vessel.process_cog_sog now c }
  | N2kMsg.nmeaSystemTime nmea_ms => { m with time := m.time.process_system_time now nmea_ms }
  | N2kMsg.temperature t => { m with env := m.env.process_temperature now t }
  | N2kMsg.windData w => { m with env := m.env.process_wind now w }
  | N2kMsg.humidity h => { m with env := m.env.process_humidity now h }
  | N2kMsg.actualPressure p => { m with env := m.env.process_actual_pressure now p }
  | N2kMsg.attitude a => { m with env := m.env.process_attitude now a }
  | N2kMsg.engineRapidUpdate e => { m with vessel := m.vessel.process_engine e }
  | N2kMsg.other => m

/-- The database write attempted by `handle_vessel_status` (src/src/main.rs lines
231-270), as the optionally emitted status row.  `db_connected` models
`vessel_db.is_some()`; `should_persist` models the cadence gate
(`vessel_monitor.should_persist_to_db(status.is_moored)` — a method absent from
`vessel_monitor.rs`; its handler-side counterpart is modelled separately).  The
write happens only when `time_monitor.is_valid_and_synced()` holds. -/
noncomputable def handle_vessel_status_write (db_connected should_persist : Bool)
    (vessel : VesselMonitor) (time : TimeMonitor) (now : ℤ) :
    Option VesselStatus × VesselMonitor :=
  match vessel.generate_status now with
  | (none, vessel') => (none, vessel')
  | (some status, vessel') =>
      if db_connected && should_persist then
        if time.is_valid_and_synced then (some status, vessel')
        else (none, vessel')
      else (none, vessel')

/-- The per-metric environmental writes attempted by `handle_environment_status`
(src/src/main.rs lines 197-229): with a connected store and a non-empty due list,
rows are written only when `time_monitor.is_valid_and_synced()` holds
(`metrics_due` models `env_monitor.get_metrics_to_persist()`). -/
def handle_environment_status_writes (db_connected : Bool) (metrics_due : List ℕ)
    (time : TimeMonitor) : List ℕ :=
  if db_connected then
    if !metrics_due.isEmpty then
      if time.is_valid_and_synced then metrics_due else []
    else []
  else []

/-! ### VesselStatusHandler (src/src/vessel_status_handler.rs, src/src/main.rs) -/

/-- The `average_speed` computation handed to the store by `handle_vessel_status`
(src/src/main.rs line 248, identically src/src/vessel_status_handler.rs line 57):
`total_distance_nm / (total_time_ms / 1000)` when the elapsed time is positive —
nautical miles divided by *seconds*. -/
noncomputable def handler_average_speed (total_distance_nm : ℝ) (total_time_ms : ℕ) : ℝ :=
  if 0 < total_time_ms then total_distance_nm / ((total_time_ms : ℝ) / 1000) else 0

/-- `VesselStatusState::should_persist_to_db` (src/src/vessel_status_handler.rs
lines 160-168), with config intervals in ms. -/
def should_persist_to_db (last_db_persist_time now interval_moored interval_underway : ℤ)
    (is_moored : Bool) : Bool :=
  let interval := if is_moored then interval_moored else interval_underway
  decide (interval ≤ durationSince now last_db_persist_time)

/-! ### Fast-packet reassembly (src/src/stream_reader.rs) -/

/-- Modelled from the spec: the `nmea2000` crate supplying `FastPacket` is an external
dependency not present in this repository.  Per spec §4.3 the first data byte of a
fast-packet frame holds a 3-bit sequence tag and a 5-bit frame counter whose value
0 marks the first frame; `is_first` therefore tests the low five bits. -/
def FastPacket.is_first (data : List ℕ) : Bool := data.getD 0 0 % 32 == 0

/-- Modelled from the spec: on a first frame, byte 1 carries the total payload
length (`FastPacket::total_len` is only consulted on first frames in the source). -/
def FastPacket.total_len (data : List ℕ) : Option ℕ :=
  if FastPacket.is_first data then some (data.getD 1 0) else none

/-- Modelled from the spec: `FastPacket::data()` — the 6 payload bytes after the
two-byte header of a first frame, or the 7 bytes after the counter byte of a
subsequent frame. -/
def FastPacket.fpData (data : List ℕ) : List ℕ :=
  if FastPacket.is_first data then data.drop 2 else data.drop 1

/-- `FastPacketBuffer` (src/src/stream_reader.rs lines 31-35). -/
structure FastPacketBuffer where
  frames : List (List ℕ)
  total_len : ℕ
  expected_frames : ℕ
deriving DecidableEq

/-- `FastPacketBuffer::new` (lines 38-52): one frame suffices for ≤ 6 payload bytes,
otherwise `1 + ⌈(total−6)/7⌉` frames (`(total−6).div_ceil(7) = ((total−6)+6)/7`). -/
def FastPacketBuffer.new (total_len : ℕ) : FastPacketBuffer :=
  { frames := [], total_len := total_len,
    expected_frames := if total_len ≤ 6 then 1 else 1 + (total_len - 6 + 6) / 7 }

/-- `FastPacketBuffer::add_frame`. -/
def FastPacketBuffer.add_frame (b : FastPacketBuffer) (frame_data : List ℕ) : FastPacketBuffer :=
  { b with frames := b.frames ++ [frame_data] }

/-- `FastPacketBuffer::is_complete`. -/
def FastPacketBuffer.is_complete (b : FastPacketBuffer) : Bool :=
  decide (b.expected_frames ≤ b.frames.length)

/-- `FastPacketBuffer::get_complete_data`: concatenate the frames and truncate to the
declared total length. -/
def FastPacketBuffer.get_complete_data (b : FastPacketBuffer) : List ℕ :=
  b.frames.flatten.take b.total_len

/-- The logical frame emitted by the reader (`N2kFrame`, lines 74-80).  The decoded
`message` field of the source is `N2kMessage::from_pgn(pgn, data)`, a function of
the fields kept here; the assembled bytes are what the fast-packet claims concern. -/
structure N2kFrame where
  pgn : ℕ
  source : ℕ
  is_fast_packet : Bool
  data : List ℕ
deriving DecidableEq

/-- `N2kStreamReader` (lines 83-85): the buffer map keyed by (pgn, source), modelled
as a function to at most one live buffer per key, exactly as a `HashMap`. -/
structure N2kStreamReader where
  fast_packet_buffers : ℕ × ℕ → Option FastPacketBuffer

/-- `N2kStreamReader::new`. -/
def N2kStreamReader.new : N2kStreamReader := ⟨fun _ => none⟩

/-- `HashMap::insert` on the buffer map. -/
def mapInsert (m : ℕ × ℕ → Option FastPacketBuffer) (key : ℕ × ℕ) (v : FastPacketBuffer) :
    ℕ × ℕ → Option FastPacketBuffer :=
  fun k => if k = key then some v else m k

/-- `HashMap::remove` on the buffer map. -/
def mapRemove (m : ℕ × ℕ → Option FastPacketBuffer) (key : ℕ × ℕ) :
    ℕ × ℕ → Option FastPacketBuffer :=
  fun k => if k = key then none else m k

/-- `N2kStreamReader::process_fast_packet` (lines 122-170), returning the optional
completed frame and the updated reader. -/
def N2kStreamReader.process_fast_packet (r : N2kStreamReader) (pgn source : ℕ)
    (data : List ℕ) : Option N2kFrame × N2kStreamReader :=
  let key := (pgn, source)
  if FastPacket.is_first data then
    match FastPacket.total_len data with
    | some total_len =>
        let buffer := (FastPacketBuffer.new total_len).add_frame (FastPacket.fpData data)
        if buffer.is_complete then
          (some { pgn := pgn, source := source, is_fast_packet := true,
                  data := buffer.get_complete_data }, r)
        else
          (none, ⟨mapInsert r.fast_packet_buffers key buffer⟩)
    | none => (none, r)
  else
    match r.fast_packet_buffers key with
    | some buffer =>
        let buffer := buffer.add_frame (FastPacket.fpData data)
        if buffer.is_complete then
          (some { pgn := pgn, source := source, is_fast_packet := true,
                  data := buffer.get_complete_data }, ⟨mapRemove r.fast_packet_buffers key⟩)
        else
          (none, ⟨mapInsert r.fast_packet_buffers key buffer⟩)
    | none => (none, r)

/-- `N2kStreamReader::is_fast_packet_pgn` (lines 172-178). -/
def is_fast_packet_pgn (pgn : ℕ) : Bool :=
  decide (pgn ∈ [126996, 127233, 127237, 127489, 127493, 127505, 128275, 129029,
                 129038, 129039, 129540, 129794, 129809, 129810])

/-- `N2kStreamReader::process_frame` (lines 103-120). -/
def N2kStreamReader.process_frame (r : N2kStreamReader) (pgn source : ℕ) (data : List ℕ) :
    Option N2kFrame × N2kStreamReader :=
  if is_fast_packet_pgn pgn && decide (data.length = 8) then
    r.process_fast_packet pgn source data
  else
    (some { pgn := pgn, source := source, is_fast_packet := false, data := data }, r)

/-- Feed a sequence of CAN data buffers to the reader in order, collecting the
emitted logical frames. -/
def feedFrames (r : N2kStreamReader) (pgn source : ℕ) : List (List ℕ) → List N2kFrame × N2kStreamReader
  | [] => ([], r)
  | f :: fs =>
      let step := r.process_frame pgn source f
      let rest := feedFrames step.2 pgn source fs
      (step.1.toList ++ rest.1, rest.2)

/-- Pad a byte list with zero bytes up to length `n` (a CAN frame always carries
8 bytes; unused trailing payload bytes are filler). -/
def padTo (n : ℕ) (l : List ℕ) : List ℕ := l ++ List.replicate (n - l.length) 0

/-- The follow-on frames of the spec §4.3 split: frame `counter` carries the next
7 payload bytes after a one-byte header. -/
def restFrames (counter : ℕ) : List ℕ → List (List ℕ)
  | [] => []
  | b :: bs => (counter :: padTo 7 ((b :: bs).take 7)) :: restFrames (counter + 1) (bs.drop 6)
termination_by l => l.length
decreasing_by simp; omega

/-- The spec §4.3 split of a payload into CAN frames: a first frame `[0, total_len,
6 payload bytes]` followed by 7-byte follow-on frames with counters 1, 2, …. -/
def splitFrames (s : List ℕ) : List (List ℕ) :=
  (0 :: s.length :: padTo 6 (s.take 6)) :: restFrames 1 (s.drop 6)

/-! ### Auxiliary definitions for stating and checking the claims -/

/-- The accepted-and-cleaned result of `process_position` (the then-branch of
lines 167-183). -/
noncomputable def VesselMonitor.accepted_push (m : VesselMonitor) (now : ℤ)
    (position_msg : PositionRapidUpdate) : VesselMonitor :=
  let sample : PositionSample :=
    { position := { latitude := position_msg.latitude, longitude := position_msg.longitude },
      timestamp := now }
  let positions :=
    (m.positions ++ [sample]).dropWhile
      (fun s => decide (s.timestamp < now - MOORING_DETECTION_WINDOW - 30000))
  { m with positions := positions }

/-- The number of mooring-window samples within 30 m of the window's mean position. -/
noncomputable def VesselMonitor.mooringWithinCount (m : VesselMonitor) (now : ℤ) : ℕ :=
  let recent := m.mooringWindow now
  let avg_position : Position :=
    { latitude := (recent.map (fun p => p.position.latitude)).sum / recent.length,
      longitude := (recent.map (fun p => p.position.longitude)).sum / recent.length }
  (recent.filter
    (fun p => decide (p.position.distance_to_nm avg_position * 1852 ≤ MOORING_THRESHOLD_METERS))).length

/-- `TimeMonitor` invariant claimed by the spec: a valid-and-synced monitor has its
last measured skew within the threshold. -/
def TimeMonitorInv (t : TimeMonitor) : Prop :=
  t.is_valid_and_synced = true → |t.last_measured_skew_ms| ≤ t.time_skew_threshold_ms

/-- Fold `process_system_time` over a list of (wall ms, GNSS ms) observations,
starting from a fresh monitor. -/
def TimeMonitor.runInputs (thr : ℤ) (inputs : List (ℤ × ℤ)) : TimeMonitor :=
  inputs.foldl (fun t p => t.process_system_time p.1 p.2) (TimeMonitor.new thr)

/-- A position-rapid-update at the origin. -/
noncomputable def posMsgZero : PositionRapidUpdate :=
  { pgn := 129025, latitude := 0, longitude := 0 }

/-- A position-rapid-update one degree of latitude (≈ 111 km) north of the origin. -/
noncomputable def posMsgFar : PositionRapidUpdate :=
  { pgn := 129025, latitude := 1, longitude := 0 }

/-- Fresh monitors as built at startup (`main`), with an uninitialized time monitor. -/
noncomputable def monitorsStart : Monitors :=
  { vessel := VesselMonitor.new 0, time := TimeMonitor.new 500, env := EnvironmentalMonitor.new }

/-- One loop iteration's `handle_message` on a position frame at instant 0, while
the time monitor is still uninitialized. -/
noncomputable def monitorsAfterPosition : Monitors :=
  handle_message monitorsStart 0 (N2kMsg.positionRapidUpdate posMsgZero)

/-- A monitor state with three in-window position samples on one meridian: two at
latitude 0 and one 0.0006° (≈ 67 m) north. -/
noncomputable def mooringCex : VesselMonitor :=
  { positions := [{ position := ⟨0, 0⟩, timestamp := 0 },
                  { position := ⟨0, 0⟩, timestamp := 1000 },
                  { position := ⟨0.0006, 0⟩, timestamp := 2000 }],
    speeds := [], winds := [], last_event_time := 0, engine_on := false,
    rolling_median_position := none }

/-- A monitor whose single position sample predates `last_event_time` by 5 s. -/
noncomputable def c4State : VesselMonitor :=
  { positions := [{ position := ⟨0, 0⟩, timestamp := -5000 }],
    speeds := [], winds := [], last_event_time := 0, engine_on := false,
    rolling_median_position := none }

/-- The status `c4State.generate_status 10000` actually emits. -/
noncomputable def c4Status : VesselStatus :=
  { current_position := ⟨0, 0⟩, average_position := some ⟨0, 0⟩, number_of_samples := 1,
    max_speed_kn := 0, is_moored := false, engine_on := false,
    wind_speed_kn := none, wind_speed_variance := none, wind_angle_deg := none,
    wind_angle_variance := none, timestamp := -5000 }

/-- A vessel monitor able to emit a status at instant 0 (one position, stale
`last_event_time`). -/
noncomputable def emitReadyVessel : VesselMonitor :=
  { positions := [{ position := ⟨0, 0⟩, timestamp := 0 }],
    speeds := [], winds := [], last_event_time := -20000, engine_on := false,
    rolling_median_position := none }

/-- A time monitor that has seen one in-threshold observation (skew 200 ms ≤ 500 ms). -/
def syncedTime : TimeMonitor := (TimeMonitor.new 500).process_system_time 1000 800

/-- Ten accepted samples at the origin, 1 s apart, all inside the 10-second
validation window as of instant 9000. -/
noncomputable def bufferTen : VesselMonitor :=
  { positions := [{ position := ⟨0, 0⟩, timestamp := 0 },
                  { position := ⟨0, 0⟩, timestamp := 1000 },
                  { position := ⟨0, 0⟩, timestamp := 2000 },
                  { position := ⟨0, 0⟩, timestamp := 3000 },
                  { position := ⟨0, 0⟩, timestamp := 4000 },
                  { position := ⟨0, 0⟩, timestamp := 5000 },
                  { position := ⟨0, 0⟩, timestamp := 6000 },
                  { position := ⟨0, 0⟩, timestamp := 7000 },
                  { position := ⟨0, 0⟩, timestamp := 8000 },
                  { position := ⟨0, 0⟩, timestamp := 9000 }],
    speeds := [], winds := [], last_event_time := 0, engine_on := false,
    rolling_median_position := none }

/-- Ten origin samples fed 1 s apart from a fresh monitor (all bootstrap-accepted). -/
noncomputable def outlierPrefix : VesselMonitor :=
  (((((((((VesselMonitor.new 0).process_position 0 posMsgZero).process_position
    1000 posMsgZero).process_position 2000 posMsgZero).process_position
    3000 posMsgZero).process_position 4000 posMsgZero).process_position
    5000 posMsgZero).process_position 6000 posMsgZero).process_position
    7000 posMsgZero).process_position 8000 posMsgZero |>.process_position 9000 posMsgZero

/-- The run above followed by a far outlier (1° north) at instant 15000, when only
five of the ten accepted samples remain inside the 10-second validation window. -/
noncomputable def outlierRun : VesselMonitor := outlierPrefix.process_position 15000 posMsgFar

/-- Fast-packet restart scenario: a first frame declaring 20 payload bytes, then a
first frame declaring 3 bytes for the same key, then the two follow-on frames of
the original sequence. -/
def fpRestartFrames : List (List ℕ) :=
  [[0, 20, 1, 2, 3, 4, 5, 6],
   [0, 3, 9, 9, 9, 0, 0, 0],
   [1, 10, 11, 12, 13, 14, 15, 16],
   [2, 17, 18, 19, 20, 21, 22, 23]]

/-! ### Lemmas: geometry -/

lemma atan2_pos_x (y x : ℝ) (hx : 0 < x) : atan2 y x = Real.arctan (y / x) := by
  simp [atan2, hx]

/-- On a meridian (equal longitudes) the haversine formula of the source reduces to
arc length: `6371 · |Δlat|·π/180 / 1.852` nautical miles, provided `|Δlat| < 180`. -/
lemma distance_to_nm_same_lon (lat1 lat2 lon : ℝ) (h : |lat2 - lat1| < 180) :
    Position.distance_to_nm ⟨lat1, lon⟩ ⟨lat2, lon⟩ =
      6371 * (|lat2 - lat1| * Real.pi / 180) / 1.852 := by
  have hpi := Real.pi_pos
  set θ : ℝ := (lat2 - lat1) * Real.pi / 180 / 2 with hθdef
  have habs : |θ| = |lat2 - lat1| * Real.pi / 360 := by
    rw [hθdef]
    rw [abs_div, abs_div, abs_mul]
    rw [abs_of_pos hpi, abs_of_pos (by norm_num : (0:ℝ) < 180), abs_of_pos (by norm_num : (0:ℝ) < 2)]
    ring
  have hθlt : |θ| < Real.pi / 2 := by
    rw [habs]
    have : |lat2 - lat1| * Real.pi < 180 * Real.pi := by
      exact mul_lt_mul_of_pos_right h hpi
    linarith
  have hθlo : -(Real.pi / 2) < θ := by
    have := neg_abs_le θ; linarith [hθlt, abs_nonneg θ, this]
  have hθhi : θ < Real.pi / 2 := lt_of_le_of_lt (le_abs_self θ) hθlt
  have hcos : 0 < Real.cos θ := Real.cos_pos_of_mem_Ioo ⟨hθlo, hθhi⟩
  -- unfold the distance; the dlon term vanishes since both longitudes agree
  have key : Position.distance_to_nm ⟨lat1, lon⟩ ⟨lat2, lon⟩
      = 6371 * (2 * atan2 (Real.sqrt (Real.sin θ ^ 2)) (Real.sqrt (1 - Real.sin θ ^ 2))) / 1.852 := by
    simp only [Position.distance_to_nm]
    rw [show lon - lon = (0:ℝ) by ring]
    rw [show toRadians 0 = 0 by simp [toRadians]]
    rw [show toRadians (lat2 - lat1) / 2 = θ by rw [hθdef, toRadians]]
    norm_num
  rw [key]
  have hsqrt1 : Real.sqrt (Real.sin θ ^ 2) = |Real.sin θ| := Real.sqrt_sq_eq_abs _
  have hone : (1 : ℝ) - Real.sin θ ^ 2 = Real.cos θ ^ 2 := (Real.cos_sq' θ).symm
  have hsqrt2 : Real.sqrt (1 - Real.sin θ ^ 2) = Real.cos θ := by
    rw [hone, Real.sqrt_sq_eq_abs, abs_of_pos hcos]
  rw [hsqrt1, hsqrt2]
  have hatan : atan2 |Real.sin θ| (Real.cos θ) = |θ| := by
    rw [atan2_pos_x _ _ hcos]
    have hsinabs : |Real.sin θ| = Real.sin |θ| := by
      rcases le_or_lt 0 θ with hθ0 | hθ0
      · rw [abs_of_nonneg hθ0, abs_of_nonneg]
        exact Real.sin_nonneg_of_nonneg_of_le_pi hθ0 (by linarith)
      · rw [abs_of_neg hθ0, Real.sin_neg]
        exact abs_of_neg (Real.sin_neg_of_neg_of_neg_pi_lt hθ0 (by linarith))
    have hcosabs : Real.cos θ = Real.cos |θ| := (Real.cos_abs θ).symm
    rw [hsinabs, hcosabs, ← Real.tan_eq_sin_div_cos]
    exact Real.arctan_tan (by linarith [abs_nonneg θ]) hθlt
  rw [hatan, habs]
  ring

/-- The meter comparison used throughout the monitor: `distance_to_nm · 1852` on a
meridian equals `6371000 · |Δlat| · π / 180` meters. -/
lemma distance_m_same_lon (lat1 lat2 lon : ℝ) (h : |lat2 - lat1| < 180) :
    Position.distance_to_nm ⟨lat1, lon⟩ ⟨lat2, lon⟩ * 1852 =
      6371000 * |lat2 - lat1| * Real.pi / 180 := by
  rw [distance_to_nm_same_lon lat1 lat2 lon h]
  have : (1.852 : ℝ) ≠ 0 := by norm_num
  field_simp
  ring

/-! ### Lemmas: list and sorting helpers -/

lemma padTo_length {l : List ℕ} {n : ℕ} (h : l.length ≤ n) : (padTo n l).length = n := by
  simp [padTo]; omega

lemma padTo_eq_self {l : List ℕ} {n : ℕ} (h : l.length = n) : padTo n l = l := by
  simp [padTo, h]

lemma sorted_replicate_le (n : ℕ) (c : ℝ) : List.Sorted (· ≤ ·) (List.replicate n c) := by
  induction n with
  | zero => simp
  | succ n ih =>
      rw [List.replicate_succ, List.sorted_cons]
      exact ⟨fun b hb => le_of_eq (List.eq_of_mem_replicate hb).symm, ih⟩

lemma mergeSort_replicate (n : ℕ) (c : ℝ) :
    (List.replicate n c).mergeSort = List.replicate n c :=
  List.mergeSort_eq_self (sorted_replicate_le n c)

lemma median_replicate (n : ℕ) (hn : n ≠ 0) (p : Position) :
    calculate_median_position (List.replicate n p) = p := by
  unfold calculate_median_position
  rw [if_neg (by simp [hn])]
  simp only [List.map_replicate, mergeSort_replicate, List.length_replicate]
  have hget : ∀ (i : ℕ) (c : ℝ), i < n → (List.replicate n c).getD i 0 = c := by
    intro i c hi
    simp [List.getD, List.getElem?_replicate, hi]
  have hmid : n / 2 < n := Nat.div_lt_self (Nat.pos_of_ne_zero hn) (by norm_num)
  have hmid1 : n / 2 - 1 < n := lt_of_le_of_lt (Nat.sub_le _ _) hmid
  rcases Nat.even_or_odd n with he | ho
  · rw [if_pos (Nat.even_iff.mp he), if_pos (Nat.even_iff.mp he)]
    rw [hget _ _ hmid1, hget _ _ hmid, hget _ _ hmid1, hget _ _ hmid]
    cases p
    norm_num
  · rw [if_neg (by simp [Nat.odd_iff.mp ho]), if_neg (by simp [Nat.odd_iff.mp ho])]
    rw [hget _ _ hmid, hget _ _ hmid]

/-! ### Claim C1 -/

/-- C1: the claim states that the `average_speed` handed to the store is the
haversine distance in nautical miles between the two effective positions divided by
the elapsed time so that the result is in knots.  The handler formula
(src/src/main.rs line 248, src/src/vessel_status_handler.rs line 57) divides
nautical miles by elapsed *seconds*: for 1 nm in 3 600 000 ms (one hour) it hands
the store 1/3600 instead of the 1 kn the claim requires.  (The distance/time
source, `VesselStatus::get_total_distance_and_time_from_last_report`,
src/src/vessel_monitor.rs lines 45-54, is moreover malformed: it ignores its
previous-status argument and uses the type name `VesselStatus` as a value.) -/
theorem c1_average_speed_is_nm_per_second :
    handler_average_speed 1 3600000 = 1 / 3600 ∧ ((1 : ℝ) / 3600) ≠ 1 := by
  constructor
  · rw [handler_average_speed, if_pos (by norm_num)]
    norm_num
  · norm_num

/-! ### Claim C8 -/

lemma timeMonitorInv_step (t : TimeMonitor) (a b : ℤ) (h : TimeMonitorInv t) :
    TimeMonitorInv (t.process_system_time a b) := by
  simp only [TimeMonitor.process_system_time]
  split_ifs with h1 h2 <;>
    first
      | exact h
      | (intro _hv; simpa using le_of_not_lt h2)
      | (intro hv; exfalso;
         simp [TimeMonitor.is_valid_and_synced, TimeMonitor.is_time_synchronized] at hv)

/-- C8: after any sequence of `process_system_time` calls from a fresh monitor,
`is_valid_and_synced` implies the recorded skew is within the threshold; and a wall
clock before the Unix epoch aborts the update, leaving the entire state — hence
`initialized`, the synchronization flag, and `last_measured_skew_ms` — unchanged. -/
theorem c8_skew_invariant_and_epoch_abort :
    (∀ (thr : ℤ) (inputs : List (ℤ × ℤ)), TimeMonitorInv (TimeMonitor.runInputs thr inputs)) ∧
    (∀ (t : TimeMonitor) (now_ms nmea_ms : ℤ), now_ms < 0 →
        t.process_system_time now_ms nmea_ms = t) := by
  constructor
  · intro thr inputs
    have hgen : ∀ (l : List (ℤ × ℤ)) (t : TimeMonitor), TimeMonitorInv t →
        TimeMonitorInv (l.foldl (fun t p => t.process_system_time p.1 p.2) t) := by
      intro l
      induction l with
      | nil => intro t ht; exact ht
      | cons p ps ih => intro t ht; exact ih _ (timeMonitorInv_step t p.1 p.2 ht)
    simp only [TimeMonitor.runInputs]
    apply hgen
    intro hv
    simp [TimeMonitor.new, TimeMonitor.is_valid_and_synced] at hv
  · intro t now_ms nmea_ms h
    simp [TimeMonitor.process_system_time, h]

/-- Witness for C8: a 200 ms skew observation under a 500 ms threshold satisfies
the invariant, and an update at wall time −5 ms (before the epoch) is the
identity. -/
theorem c8_skew_invariant_and_epoch_abort_witness :
    TimeMonitorInv (TimeMonitor.runInputs 500 [(1000, 800)]) ∧
    (TimeMonitor.new 500).process_system_time (-5) 0 = TimeMonitor.new 500 :=
  ⟨c8_skew_invariant_and_epoch_abort.1 500 [(1000, 800)],
   c8_skew_invariant_and_epoch_abort.2 (TimeMonitor.new 500) (-5) 0 (by decide)⟩

/-! ### Claim C9 -/

/-- C9: the SOG noise gate.  (1) `process_cog_sog` preserves the invariant that
every buffered speed sample is at most 25 kn; (2) a message whose speed over ground
is exactly 25 kn is accepted and appended (then age-cleaned); (3) a message whose
speed exceeds 25 kn is rejected with the whole monitor unchanged. -/
theorem c9_sog_gate :
    (∀ (m : VesselMonitor) (now : ℤ) (msg : CogSogRapidUpdate),
        (∀ s ∈ m.speeds, s.speed_kn ≤ 25) →
        ∀ s ∈ (m.process_cog_sog now msg).speeds, s.speed_kn ≤ 25) ∧
    (∀ (m : VesselMonitor) (now : ℤ) (msg : CogSogRapidUpdate), msg.sog_knots = 25 →
        (m.process_cog_sog now msg).speeds =
          (m.speeds ++ [({ speed_kn := msg.sog_knots, timestamp := now } : SpeedSample)]).dropWhile
            (fun s => decide (s.timestamp < now - EVENT_INTERVAL - 5000))) ∧
    (∀ (m : VesselMonitor) (now : ℤ) (msg : CogSogRapidUpdate), 25 < msg.sog_knots →
        m.process_cog_sog now msg = m) := by
  refine ⟨?_, ?_, ?_⟩
  · intro m now msg hall s hs
    simp only [VesselMonitor.process_cog_sog] at hs
    by_cases hgate : MAX_VALID_SOG_KN < msg.sog_knots
    · rw [if_pos (by simpa using hgate)] at hs
      exact hall s hs
    · rw [if_neg (by simpa using hgate)] at hs
      simp only at hs
      have hs' := (List.dropWhile_sublist _).subset hs
      rcases List.mem_append.mp hs' with hold | hnew
      · exact hall s hold
      · rcases List.mem_singleton.mp hnew with rfl
        simpa [MAX_VALID_SOG_KN] using le_of_not_lt hgate
  · intro m now msg hexact
    simp only [VesselMonitor.process_cog_sog]
    rw [if_neg (by simp [hexact, MAX_VALID_SOG_KN])]
  · intro m now msg hover
    simp only [VesselMonitor.process_cog_sog]
    rw [if_pos (by simp [MAX_VALID_SOG_KN, hover])]

/-- Witness for C9: the invariant step on an empty buffer; acceptance of a message
whose SOG is exactly 25 kn (raw SOG 25/1.94384 m/s); rejection at 25.0001 kn. -/
theorem c9_sog_gate_witness :
    (∀ s ∈ ((VesselMonitor.new 0).process_cog_sog 0
        { pgn := 129026, sid := 0, cog_reference := true, cog := 0,
          sog := 25 / 1.94384 }).speeds, s.speed_kn ≤ 25) ∧
    (((VesselMonitor.new 0).process_cog_sog 0
        { pgn := 129026, sid := 0, cog_reference := true, cog := 0,
          sog := 25 / 1.94384 }).speeds =
      ((VesselMonitor.new 0).speeds ++
        [({ speed_kn := CogSogRapidUpdate.sog_knots
              { pgn := 129026, sid := 0, cog_reference := true, cog := 0,
                sog := 25 / 1.94384 }, timestamp := 0 } : SpeedSample)]).dropWhile
        (fun s => decide (s.timestamp < 0 - EVENT_INTERVAL - 5000))) ∧
    ((VesselMonitor.new 0).process_cog_sog 0
        { pgn := 129026, sid := 0, cog_reference := true, cog := 0,
          sog := 25.0001 / 1.94384 }) = VesselMonitor.new 0 :=
  ⟨c9_sog_gate.1 (VesselMonitor.new 0) 0 _ (by simp [VesselMonitor.new]),
   c9_sog_gate.2.1 (VesselMonitor.new 0) 0 _
     (by simp [CogSogRapidUpdate.sog_knots]; norm_num),
   c9_sog_gate.2.2 (VesselMonitor.new 0) 0 _
     (by simp [CogSogRapidUpdate.sog_knots]; norm_num)⟩

/-! ### Claim C10 -/

/-- C10 (amended): sentinel handling is per-decoder, not uniform.  The `i16`
sentinel `0x7FFF` maps to `None` in all three `Attitude` fields (yaw, pitch,
roll); the `u16` sentinel `0xFFFF` maps to `None` in `EngineRapidUpdate`'s
engine speed and boost pressure and the `i8` sentinel `−128` in its tilt/trim;
the `u16` sentinel maps to `None` in `Humidity::set_humidity`.  But
`VesselHeading::deviation`, `VesselHeading::variation` and
`Temperature::set_temperature` are wrapped in `Some` with no sentinel check, and
`WindData`'s non-optional speed and angle fields scale whatever raw `u16` arrives
— sentinel codepoints included — as a plain number. -/
theorem c10_sentinel_handling :
    (∀ data : List ℕ, 7 ≤ data.length →
        i16_from_le (data.getD 1 0) (data.getD 2 0) = 32767 →
        (Attitude.from_bytes data).map Attitude.yaw = some none) ∧
    (∀ data : List ℕ, 7 ≤ data.length →
        i16_from_le (data.getD 3 0) (data.getD 4 0) = 32767 →
        (Attitude.from_bytes data).map Attitude.pitch = some none) ∧
    (∀ data : List ℕ, 7 ≤ data.length →
        i16_from_le (data.getD 5 0) (data.getD 6 0) = 32767 →
        (Attitude.from_bytes data).map Attitude.roll = some none) ∧
    (∀ data : List ℕ, 8 ≤ data.length →
        u16_from_le (data.getD 1 0) (data.getD 2 0) = 65535 →
        (EngineRapidUpdate.from_bytes data).map EngineRapidUpdate.engine_speed = some none) ∧
    (∀ data : List ℕ, 8 ≤ data.length →
        u16_from_le (data.getD 3 0) (data.getD 4 0) = 65535 →
        (EngineRapidUpdate.from_bytes data).map
          EngineRapidUpdate.engine_boost_pressure = some none) ∧
    (∀ data : List ℕ, 8 ≤ data.length →
        i8_of_byte (data.getD 5 0) = -128 →
        (EngineRapidUpdate.from_bytes data).map EngineRapidUpdate.engine_tilt_trim = some none) ∧
    (∀ data : List ℕ, 7 ≤ data.length →
        u16_from_le (data.getD 5 0) (data.getD 6 255) = 65535 →
        (Humidity.from_bytes data).map Humidity.set_humidity = some none) ∧
    (∀ data : List ℕ, 8 ≤ data.length →
        (VesselHeading.from_bytes data).map VesselHeading.deviation =
          some (some ((i16_from_le (data.getD 3 0) (data.getD 4 0) : ℝ) * 0.0001))) ∧
    (∀ data : List ℕ, 8 ≤ data.length →
        (VesselHeading.from_bytes data).map VesselHeading.variation =
          some (some ((i16_from_le (data.getD 5 0) (data.getD 6 0) : ℝ) * 0.0001))) ∧
    (∀ data : List ℕ, 8 ≤ data.length →
        (Temperature.from_bytes data).map Temperature.set_temperature =
          some (some ((u16_from_le (data.getD 6 0) (data.getD 7 0) : ℝ) * 0.01))) ∧
    (∀ data : List ℕ, 6 ≤ data.length →
        (WindData.from_bytes data).map WindData.speed =
          some ((u16_from_le (data.getD 1 0) (data.getD 2 0) : ℝ) * 0.01)) ∧
    (∀ data : List ℕ, 6 ≤ data.length →
        (WindData.from_bytes data).map WindData.angle =
          some ((u16_from_le (data.getD 3 0) (data.getD 4 0) : ℝ) * 0.0001)) := by
  refine ⟨?_, ?_, ?_, ?_, ?_, ?_, ?_, ?_, ?_, ?_, ?_, ?_⟩
  · intro data hlen hsent
    rw [Attitude.from_bytes, if_pos hlen]
    simp only [List.getD_eq_getElem?_getD] at hsent
    simp [hsent]
  · intro data hlen hsent
    rw [Attitude.from_bytes, if_pos hlen]
    simp only [List.getD_eq_getElem?_getD] at hsent
    simp [hsent]
  · intro data hlen hsent
    rw [Attitude.from_bytes, if_pos hlen]
    simp only [List.getD_eq_getElem?_getD] at hsent
    simp [hsent]
  · intro data hlen hsent
    rw [EngineRapidUpdate.from_bytes, if_neg (by omega)]
    simp only [List.getD_eq_getElem?_getD] at hsent
    simp [hsent]
  · intro data hlen hsent
    rw [EngineRapidUpdate.from_bytes, if_neg (by omega)]
    simp only [List.getD_eq_getElem?_getD] at hsent
    simp [hsent]
  · intro data hlen hsent
    rw [EngineRapidUpdate.from_bytes, if_neg (by omega)]
    simp only [List.getD_eq_getElem?_getD] at hsent
    simp [hsent]
  · intro data hlen hsent
    rw [Humidity.from_bytes, if_neg (by omega)]
    simp only [List.getD_eq_getElem?_getD] at hsent
    simp [hlen, hsent]
  · intro data hlen
    rw [VesselHeading.from_bytes, if_neg (by omega)]
    simp
  · intro data hlen
    rw [VesselHeading.from_bytes, if_neg (by omega)]
    simp
  · intro data hlen
    rw [Temperature.from_bytes, if_neg (by omega)]
    simp [hlen]
  · intro data hlen
    rw [WindData.from_bytes, if_neg (by omega)]
    simp
  · intro data hlen
    rw [WindData.from_bytes, if_neg (by omega)]
    simp

/-- Counterexample for C10 as stated: an 8-byte PGN 130312 buffer whose raw
set-temperature `u16` is the sentinel `0xFFFF` decodes to
`set_temperature = Some(655.35 K)` instead of the absent field the claim asserts
for every supported decoder. -/
theorem c10_counterexample :
    (Temperature.from_bytes [0, 0, 0, 0, 0, 0, 255, 255]).map Temperature.set_temperature =
      some (some (65535 * 0.01)) ∧
    some (some ((65535 : ℝ) * 0.01)) ≠ (some none : Option (Option ℝ)) := by
  constructor
  · rw [Temperature.from_bytes, if_neg (by norm_num)]
    simp [u16_from_le]
  · simp

/-- Witness for C10 (amended) at concrete sentinel buffers, one per field. -/
theorem c10_sentinel_handling_witness :
    (Attitude.from_bytes [0, 255, 127, 0, 0, 0, 0]).map Attitude.yaw = some none ∧
    (Attitude.from_bytes [0, 0, 0, 255, 127, 0, 0]).map Attitude.pitch = some none ∧
    (Attitude.from_bytes [1, 0, 0, 0, 0, 255, 127]).map Attitude.roll = some none ∧
    (EngineRapidUpdate.from_bytes [0, 255, 255, 0, 0, 0, 0, 0]).map
        EngineRapidUpdate.engine_speed = some none ∧
    (EngineRapidUpdate.from_bytes [0, 0, 0, 255, 255, 0, 0, 0]).map
        EngineRapidUpdate.engine_boost_pressure = some none ∧
    (EngineRapidUpdate.from_bytes [0, 0, 0, 0, 0, 128, 0, 0]).map
        EngineRapidUpdate.engine_tilt_trim = some none ∧
    (Humidity.from_bytes [0, 0, 0, 0, 0, 255, 255]).map Humidity.set_humidity = some none ∧
    (VesselHeading.from_bytes [0, 0, 0, 255, 127, 0, 0, 0]).map VesselHeading.deviation =
      some (some ((i16_from_le 255 127 : ℝ) * 0.0001)) ∧
    (VesselHeading.from_bytes [0, 0, 0, 0, 0, 255, 127, 0]).map VesselHeading.variation =
      some (some ((i16_from_le 255 127 : ℝ) * 0.0001)) ∧
    (Temperature.from_bytes [0, 0, 0, 0, 0, 0, 255, 255]).map Temperature.set_temperature =
      some (some ((u16_from_le 255 255 : ℝ) * 0.01)) ∧
    (WindData.from_bytes [0, 255, 255, 0, 0, 0]).map WindData.speed =
      some ((u16_from_le 255 255 : ℝ) * 0.01) ∧
    (WindData.from_bytes [0, 0, 0, 255, 255, 0]).map WindData.angle =
      some ((u16_from_le 255 255 : ℝ) * 0.0001) :=
  ⟨c10_sentinel_handling.1 _ (by decide) (by decide),
   c10_sentinel_handling.2.1 _ (by decide) (by decide),
   c10_sentinel_handling.2.2.1 _ (by decide) (by decide),
   c10_sentinel_handling.2.2.2.1 _ (by decide) (by decide),
   c10_sentinel_handling.2.2.2.2.1 _ (by decide) (by decide),
   c10_sentinel_handling.2.2.2.2.2.1 _ (by decide) (by decide),
   c10_sentinel_handling.2.2.2.2.2.2.1 _ (by decide) (by decide),
   c10_sentinel_handling.2.2.2.2.2.2.2.1 _ (by decide),
   c10_sentinel_handling.2.2.2.2.2.2.2.2.1 _ (by decide),
   c10_sentinel_handling.2.2.2.2.2.2.2.2.2.1 _ (by decide),
   c10_sentinel_handling.2.2.2.2.2.2.2.2.2.2.1 _ (by decide),
   c10_sentinel_handling.2.2.2.2.2.2.2.2.2.2.2 _ (by decide)⟩

/-! ### Claim C5 -/

/-- C5 (amended): the buffer map keys every live buffer by (pgn, source), so at
most one buffer per key exists by construction.  A 'first' frame declaring more
than 6 payload bytes replaces any in-flight buffer for its key; but a 'first'
frame declaring at most 6 payload bytes completes immediately and leaves the
reader — hence any in-flight buffer for the key — untouched, so that buffer can
still complete. -/
theorem c5_first_frame_replacement :
    (∀ (r : N2kStreamReader) (pgn source : ℕ) (data : List ℕ) (total_len : ℕ),
        FastPacket.is_first data = true → FastPacket.total_len data = some total_len →
        6 < total_len →
        (r.process_fast_packet pgn source data).2.fast_packet_buffers (pgn, source) =
          some ((FastPacketBuffer.new total_len).add_frame (FastPacket.fpData data))) ∧
    (∀ (r : N2kStreamReader) (pgn source : ℕ) (data : List ℕ) (total_len : ℕ),
        FastPacket.is_first data = true → FastPacket.total_len data = some total_len →
        total_len ≤ 6 →
        (r.process_fast_packet pgn source data).2 = r) := by
  constructor
  · intro r pgn source data total_len hfirst htot hbig
    rw [N2kStreamReader.process_fast_packet]
    simp only [hfirst, if_true, htot]
    rw [if_neg]
    · simp [mapInsert]
    · simp [FastPacketBuffer.is_complete, FastPacketBuffer.add_frame, FastPacketBuffer.new]
      rw [if_neg (by omega)]
      omega
  · intro r pgn source data total_len hfirst htot hsmall
    rw [N2kStreamReader.process_fast_packet]
    simp only [hfirst, if_true, htot]
    rw [if_pos]
    simp [FastPacketBuffer.is_complete, FastPacketBuffer.add_frame, FastPacketBuffer.new, hsmall]

/-- Counterexample for C5 as stated: after a first frame declaring 20 bytes for
(129029, 5), a second 'first' frame declaring 3 bytes emits immediately and leaves
the 20-byte buffer in flight; the two follow-on frames then complete that prior
buffer, which the claim says can never complete. -/
theorem c5_counterexample :
    ((feedFrames N2kStreamReader.new 129029 5 (fpRestartFrames.take 2)).2.fast_packet_buffers
        (129029, 5)).map FastPacketBuffer.total_len = some 20 ∧
    (feedFrames N2kStreamReader.new 129029 5 fpRestartFrames).1 =
      [{ pgn := 129029, source := 5, is_fast_packet := true, data := [9, 9, 9] },
       { pgn := 129029, source := 5, is_fast_packet := true,
         data := [1, 2, 3, 4, 5, 6, 10, 11, 12, 13, 14, 15, 16,
                  17, 18, 19, 20, 21, 22, 23] }] := by
  constructor
  · rfl
  · rfl

/-- Witness for C5 (amended): the replacement branch on a fresh reader with a
first frame declaring 20 bytes, and the leave-alone branch with one declaring 3. -/
theorem c5_first_frame_replacement_witness :
    ((N2kStreamReader.new.process_fast_packet 129029 5 [0, 20, 1, 2, 3, 4, 5, 6]).2.fast_packet_buffers
        (129029, 5) =
      some ((FastPacketBuffer.new 20).add_frame
        (FastPacket.fpData [0, 20, 1, 2, 3, 4, 5, 6]))) ∧
    (N2kStreamReader.new.process_fast_packet 129029 5 [0, 3, 9, 9, 9, 0, 0, 0]).2 =
      N2kStreamReader.new :=
  ⟨c5_first_frame_replacement.1 N2kStreamReader.new 129029 5 _ 20 (by decide) (by decide)
      (by decide),
   c5_first_frame_replacement.2 N2kStreamReader.new 129029 5 _ 3 (by decide) (by decide)
      (by decide)⟩

/-! ### Claim C2 -/

/-- C2 (amended): `handle_message` feeds the vessel and environmental monitors
unconditionally — the updated vessel/environment states do not depend on the time
monitor's state at all — while time synchronization gates only the database
writes: both the vessel-status write and the environmental writes emit rows only
when `is_valid_and_synced()` holds. -/
theorem c2_sync_gates_persistence_not_monitors :
    (∀ (m : Monitors) (t' : TimeMonitor) (now : ℤ) (msg : N2kMsg),
        (handle_message m now msg).vessel = (handle_message { m with time := t' } now msg).vessel ∧
        (handle_message m now msg).env = (handle_message { m with time := t' } now msg).env) ∧
    (∀ (db sp : Bool) (vessel : VesselMonitor) (time : TimeMonitor) (now : ℤ),
        (handle_vessel_status_write db sp vessel time now).1.isSome = true →
        time.is_valid_and_synced = true) ∧
    (∀ (db : Bool) (due : List ℕ) (time : TimeMonitor),
        handle_environment_status_writes db due time ≠ [] →
        time.is_valid_and_synced = true) := by
  refine ⟨?_, ?_, ?_⟩
  · intro m t' now msg
    cases msg <;> exact ⟨rfl, rfl⟩
  · intro db sp vessel time now h
    rw [handle_vessel_status_write] at h
    rcases hg : vessel.generate_status now with ⟨st, v'⟩
    rw [hg] at h
    cases st with
    | none => simp at h
    | some status =>
        simp only at h
        by_cases hdb : (db && sp) = true
        · rw [if_pos hdb] at h
          by_cases hs : time.is_valid_and_synced = true
          · exact hs
          · rw [if_neg hs] at h
            simp at h
        · rw [if_neg hdb] at h
          simp at h
  · intro db due time h
    by_cases hs : time.is_valid_and_synced = true
    · exact hs
    · have hs' : time.is_valid_and_synced = false := by
        cases hval : time.is_valid_and_synced
        · rfl
        · exact absurd hval hs
      simp [handle_environment_status_writes, hs'] at h

/-- Counterexample for C2 as stated: with the time monitor uninitialized (so not
synchronized), one `handle_message` call on a position frame grows the vessel
monitor's position buffer from 0 to 1 sample — the claim says the buffers never
change while time is unsynchronized. -/
theorem c2_counterexample :
    monitorsStart.time.is_valid_and_synced = false ∧
    monitorsStart.vessel.positions.length = 0 ∧
    monitorsAfterPosition.vessel.positions.length = 1 :=
  ⟨rfl, rfl, rfl⟩

/-- Witness for C2 (amended): the monitor updates agree under two different time
states, and both write paths demand a synced monitor at concrete emitting inputs. -/
theorem c2_sync_gates_persistence_not_monitors_witness :
    ((handle_message monitorsStart 0 (N2kMsg.positionRapidUpdate posMsgZero)).vessel =
       (handle_message { monitorsStart with time := syncedTime } 0
          (N2kMsg.positionRapidUpdate posMsgZero)).vessel ∧
     (handle_message monitorsStart 0 (N2kMsg.positionRapidUpdate posMsgZero)).env =
       (handle_message { monitorsStart with time := syncedTime } 0
          (N2kMsg.positionRapidUpdate posMsgZero)).env) ∧
    syncedTime.is_valid_and_synced = true ∧
    syncedTime.is_valid_and_synced = true :=
  ⟨c2_sync_gates_persistence_not_monitors.1 monitorsStart syncedTime 0
      (N2kMsg.positionRapidUpdate posMsgZero),
   c2_sync_gates_persistence_not_monitors.2.1 true true emitReadyVessel syncedTime 0 rfl,
   c2_sync_gates_persistence_not_monitors.2.2 true [1] syncedTime (by decide)⟩

/-! ### Claim C3 -/

lemma is_vessel_moored_iff (m : VesselMonitor) (now : ℤ) :
    m.is_vessel_moored now = true ↔
      2 ≤ m.positions.length ∧ m.mooringWindow now ≠ [] ∧
      9 * (m.mooringWindow now).length ≤ 10 * m.mooringWithinCount now + 9 := by
  simp only [VesselMonitor.is_vessel_moored, VesselMonitor.mooringWithinCount]
  by_cases h1 : m.positions.length < 2
  · rw [if_pos h1]
    constructor
    · intro hfalse; exact absurd hfalse (by simp)
    · rintro ⟨h2, -, -⟩; omega
  · rw [if_neg h1]
    by_cases h2 : (m.mooringWindow now).isEmpty = true
    · rw [if_pos h2]
      constructor
      · intro hfalse; exact absurd hfalse (by simp)
      · rintro ⟨-, hne, -⟩
        exact absurd (List.isEmpty_iff.mp h2) hne
    · rw [if_neg h2]
      rw [decide_eq_true_eq]
      constructor
      · intro hdiv
        refine ⟨by omega, ?_, by omega⟩
        intro hc
        rw [hc] at h2
        simp at h2
      · rintro ⟨-, -, h3⟩
        omega

lemma c3cex_win : mooringCex.mooringWindow 2000 = mooringCex.positions := rfl

lemma c3cex_avg :
    ({ latitude := (mooringCex.positions.map (fun p => p.position.latitude)).sum /
         (mooringCex.positions.length : ℝ),
       longitude := (mooringCex.positions.map (fun p => p.position.longitude)).sum /
         (mooringCex.positions.length : ℝ) } : Position) = ⟨0.0002, 0⟩ := by
  simp only [mooringCex]
  norm_num

lemma c3cex_within : mooringCex.mooringWithinCount 2000 = 2 := by
  simp only [VesselMonitor.mooringWithinCount, c3cex_win, c3cex_avg]
  have hnear : Position.distance_to_nm ⟨0, 0⟩ ⟨0.0002, 0⟩ * 1852 ≤ MOORING_THRESHOLD_METERS := by
    rw [MOORING_THRESHOLD_METERS,
        distance_m_same_lon 0 0.0002 0
          (by rw [show (0.0002:ℝ) - 0 = 0.0002 by ring,
                  abs_of_nonneg (by norm_num : (0:ℝ) ≤ 0.0002)]; norm_num)]
    rw [show (0.0002:ℝ) - 0 = 0.0002 by ring,
        abs_of_nonneg (by norm_num : (0:ℝ) ≤ 0.0002)]
    have := Real.pi_lt_d2
    linarith
  have hfar : ¬ (Position.distance_to_nm ⟨0.0006, 0⟩ ⟨0.0002, 0⟩ * 1852 ≤
      MOORING_THRESHOLD_METERS) := by
    rw [MOORING_THRESHOLD_METERS,
        distance_m_same_lon 0.0006 0.0002 0
          (by rw [show (0.0002:ℝ) - 0.0006 = -0.0004 by ring,
                  abs_of_nonpos (by norm_num : (-0.0004:ℝ) ≤ 0)]; norm_num)]
    rw [show (0.0002:ℝ) - 0.0006 = -0.0004 by ring,
        abs_of_nonpos (by norm_num : (-0.0004:ℝ) ≤ 0)]
    have := Real.pi_gt_three
    push_neg
    nlinarith
  have h1 : decide (Position.distance_to_nm ⟨0, 0⟩ ⟨0.0002, 0⟩ * 1852 ≤
      MOORING_THRESHOLD_METERS) = true := decide_eq_true hnear
  have h3 : decide (Position.distance_to_nm ⟨0.0006, 0⟩ ⟨0.0002, 0⟩ * 1852 ≤
      MOORING_THRESHOLD_METERS) = false := decide_eq_false hfar
  simp [mooringCex, h1, h3]

/-- C3 (amended): the mooring predicate holds iff the whole buffer has at least 2
samples, the 120-second window is non-empty, and the number of window samples
within 30 m of the window's mean position reaches `⌊0.9·n⌋` — the float product
`n as f64 * 0.90` truncated by the `as usize` cast, i.e. `9·n ≤ 10·count + 9` —
rather than the claim's untruncated 90 % of `n`. -/
theorem c3_mooring_truncated_percentage (m : VesselMonitor) (now : ℤ) :
    m.is_vessel_moored now = true ↔
      2 ≤ m.positions.length ∧ m.mooringWindow now ≠ [] ∧
      9 * (m.mooringWindow now).length ≤ 10 * m.mooringWithinCount now + 9 :=
  is_vessel_moored_iff m now

/-- Counterexample for C3 as stated: three in-window samples on one meridian, two
within 30 m of the mean and one outside it, make `is_vessel_moored` return true
although only 2/3 ≈ 66.7 % < 90 % of the window lies within 30 m of the mean. -/
theorem c3_counterexample :
    mooringCex.is_vessel_moored 2000 = true ∧
    10 * mooringCex.mooringWithinCount 2000 < 9 * (mooringCex.mooringWindow 2000).length := by
  constructor
  · rw [is_vessel_moored_iff]
    refine ⟨by simp [mooringCex], ?_, ?_⟩
    · rw [c3cex_win]
      simp [mooringCex]
    · rw [c3cex_win, c3cex_within]
      simp [mooringCex]
  · rw [c3cex_win, c3cex_within]
    simp [mooringCex]

/-! ### Claim C4 -/

lemma generate_status_none_iff (m : VesselMonitor) (now : ℤ) :
    (m.generate_status now).1 = none ↔
      ¬ (EVENT_INTERVAL ≤ durationSince now m.last_event_time ∧ m.positions ≠ []) := by
  rw [VesselMonitor.generate_status]
  by_cases hc : (!m.should_generate_event now || m.positions.isEmpty) = true
  · rw [if_pos hc]
    simp only [VesselMonitor.should_generate_event, Bool.or_eq_true, Bool.not_eq_true',
      decide_eq_false_iff_not, List.isEmpty_iff] at hc
    simp only [true_iff]
    tauto
  · rw [if_neg hc]
    simp only [VesselMonitor.should_generate_event, Bool.or_eq_true, Bool.not_eq_true',
      decide_eq_false_iff_not, List.isEmpty_iff] at hc
    push_neg at hc
    simp only [not_and, not_not]
    constructor
    · intro habs
      exact absurd habs (by simp)
    · intro h
      exact absurd (h hc.1) hc.2

lemma generate_status_some (m : VesselMonitor) (now : ℤ) (s : VesselStatus)
    (h : (m.generate_status now).1 = some s) :
    s.number_of_samples = (m.averagedWindow EVENT_INTERVAL).length ∧
    (s.average_position = none ↔ (m.averagedWindow EVENT_INTERVAL).length = 0) ∧
    (0 < (m.averagedWindow EVENT_INTERVAL).length →
      s.average_position = some
        { latitude := ((m.averagedWindow EVENT_INTERVAL).map (fun p => p.position.latitude)).sum /
            ((m.averagedWindow EVENT_INTERVAL).length : ℝ),
          longitude := ((m.averagedWindow EVENT_INTERVAL).map (fun p => p.position.longitude)).sum /
            ((m.averagedWindow EVENT_INTERVAL).length : ℝ) }) := by
  rw [VesselMonitor.generate_status] at h
  by_cases hc : (!m.should_generate_event now || m.positions.isEmpty) = true
  · rw [if_pos hc] at h
    simp at h
  · rw [if_neg hc] at h
    simp only [Option.some.injEq] at h
    subst h
    simp only [VesselMonitor.calculate_average_position]
    by_cases hcount : 0 < (m.averagedWindow EVENT_INTERVAL).length
    · rw [if_pos hcount]
      refine ⟨rfl, ?_, fun _ => rfl⟩
      constructor
      · intro habs
        exact absurd habs (by simp)
      · intro h0
        omega
    · rw [if_neg hcount]
      refine ⟨rfl, ?_, fun hpos => absurd hpos hcount⟩
      constructor
      · intro _
        omega
      · intro _
        rfl

lemma c4cex_generate : (c4State.generate_status 10000).1 = some c4Status := by
  rw [VesselMonitor.generate_status]
  rw [if_neg (by decide)]
  simp only [c4State, c4Status, VesselMonitor.calculate_average_position,
    VesselMonitor.averagedWindow, VesselMonitor.calculate_average_and_max_speed,
    VesselMonitor.is_vessel_moored, VesselMonitor.calculate_wind_statistics,
    VesselMonitor.mooringWindow, EVENT_INTERVAL, durationSince]
  norm_num [VesselStatus.mk.injEq, Position.mk.injEq]

/-- C4 (amended): `generate_status` returns `None` unless 10 s have elapsed since
`last_event_time` and the position buffer is non-empty.  When it returns a status,
`number_of_samples` and `average_position` are computed over the *maximal newest
suffix* of the buffer whose samples satisfy `saturating (timestamp −
last_event_time) ≤ 10 s` — which includes every sample older than
`last_event_time` (saturating difference 0) and excludes samples newer than
`last_event_time + 10 s` — not over the samples with timestamp ≥ `last_event_time`
as claimed; `average_position` is the arithmetic mean of exactly that suffix and
is `None` exactly when the suffix is empty. -/
theorem c4_generate_status_window :
    (∀ (m : VesselMonitor) (now : ℤ),
        (m.generate_status now).1 = none ↔
          ¬ (EVENT_INTERVAL ≤ durationSince now m.last_event_time ∧ m.positions ≠ [])) ∧
    (∀ (m : VesselMonitor) (now : ℤ) (s : VesselStatus),
        (m.generate_status now).1 = some s →
        s.number_of_samples = (m.averagedWindow EVENT_INTERVAL).length ∧
        (s.average_position = none ↔ (m.averagedWindow EVENT_INTERVAL).length = 0) ∧
        (0 < (m.averagedWindow EVENT_INTERVAL).length →
          s.average_position = some
            { latitude := ((m.averagedWindow EVENT_INTERVAL).map
                  (fun p => p.position.latitude)).sum /
                ((m.averagedWindow EVENT_INTERVAL).length : ℝ),
              longitude := ((m.averagedWindow EVENT_INTERVAL).map
                  (fun p => p.position.longitude)).sum /
                ((m.averagedWindow EVENT_INTERVAL).length : ℝ) })) :=
  ⟨generate_status_none_iff, generate_status_some⟩

/-- Counterexample for C4 as stated: a single position sample 5 s *older* than
`last_event_time` still yields a status with `number_of_samples = 1` and a present
`average_position`, although zero samples have timestamp ≥ `last_event_time` — the
claim requires the count 0 and `average_position = None` here. -/
theorem c4_counterexample :
    (c4State.generate_status 10000).1 = some c4Status ∧
    c4Status.number_of_samples = 1 ∧
    c4Status.average_position = some ⟨0, 0⟩ ∧
    (c4State.positions.filter
      (fun p => decide (c4State.last_event_time ≤ p.timestamp))).length = 0 :=
  ⟨c4cex_generate, rfl, rfl, by decide⟩

/-- Witness for C4 (amended), applying the characterization at the concrete
emitting state `c4State` at instant 10000. -/
theorem c4_generate_status_window_witness :
    c4Status.number_of_samples = (c4State.averagedWindow EVENT_INTERVAL).length ∧
    (c4Status.average_position = none ↔ (c4State.averagedWindow EVENT_INTERVAL).length = 0) ∧
    (0 < (c4State.averagedWindow EVENT_INTERVAL).length →
      c4Status.average_position = some
        { latitude := ((c4State.averagedWindow EVENT_INTERVAL).map
              (fun p => p.position.latitude)).sum /
            ((c4State.averagedWindow EVENT_INTERVAL).length : ℝ),
          longitude := ((c4State.averagedWindow EVENT_INTERVAL).map
              (fun p => p.position.longitude)).sum /
            ((c4State.averagedWindow EVENT_INTERVAL).length : ℝ) }) :=
  c4_generate_status_window.2 c4State 10000 c4Status c4cex_generate

/-! ### Claim C7 -/

lemma process_position_bootstrap (m : VesselMonitor) (now : ℤ) (msg : PositionRapidUpdate)
    (h : (m.recentWindow now).length < 10) :
    m.process_position now msg = m.accepted_push now msg := by
  have hv : m.is_valid_position now
      { latitude := msg.latitude, longitude := msg.longitude } = true := by
    rw [VesselMonitor.is_valid_position]
    simp only [List.length_map]
    rw [if_pos (by simpa [MIN_SAMPLES_FOR_VALIDATION] using h)]
  rw [VesselMonitor.process_position, VesselMonitor.accepted_push]
  simp only [hv, if_true]

lemma process_position_validated (m : VesselMonitor) (now : ℤ) (msg : PositionRapidUpdate)
    (h : 10 ≤ (m.recentWindow now).length) :
    (Position.distance_to_nm { latitude := msg.latitude, longitude := msg.longitude }
        (calculate_median_position ((m.recentWindow now).map PositionSample.position)) * 1852 ≤ 100 →
      m.process_position now msg = m.accepted_push now msg) ∧
    (100 < Position.distance_to_nm { latitude := msg.latitude, longitude := msg.longitude }
        (calculate_median_position ((m.recentWindow now).map PositionSample.position)) * 1852 →
      m.process_position now msg = m) := by
  constructor
  · intro hdist
    have hv : m.is_valid_position now
        { latitude := msg.latitude, longitude := msg.longitude } = true := by
      rw [VesselMonitor.is_valid_position]
      simp only [List.length_map]
      rw [if_neg (by simp [MIN_SAMPLES_FOR_VALIDATION]; omega)]
      rw [MAX_POSITION_DEVIATION_METERS]
      exact decide_eq_true hdist
    rw [VesselMonitor.process_position, VesselMonitor.accepted_push]
    simp only [hv, if_true]
  · intro hdist
    have hv : m.is_valid_position now
        { latitude := msg.latitude, longitude := msg.longitude } = false := by
      rw [VesselMonitor.is_valid_position]
      simp only [List.length_map]
      rw [if_neg (by simp [MIN_SAMPLES_FOR_VALIDATION]; omega)]
      rw [MAX_POSITION_DEVIATION_METERS]
      exact decide_eq_false (not_le.mpr hdist)
    rw [VesselMonitor.process_position]
    simp only [hv, Bool.false_eq_true, if_false]

lemma c7wit_window : (bufferTen.recentWindow 9000).map PositionSample.position =
    List.replicate 10 (⟨0, 0⟩ : Position) := rfl

lemma c7wit_near : Position.distance_to_nm { latitude := (0.0005 : ℝ), longitude := (0 : ℝ) }
    (calculate_median_position ((bufferTen.recentWindow 9000).map PositionSample.position)) *
      1852 ≤ 100 := by
  rw [c7wit_window, median_replicate 10 (by norm_num)]
  rw [distance_m_same_lon 0.0005 0 0
      (by rw [show (0:ℝ) - 0.0005 = -0.0005 by ring,
              abs_of_nonpos (by norm_num : (-0.0005:ℝ) ≤ 0)]; norm_num)]
  rw [show (0:ℝ) - 0.0005 = -0.0005 by ring,
      abs_of_nonpos (by norm_num : (-0.0005:ℝ) ≤ 0)]
  have := Real.pi_lt_d2
  linarith

lemma c7wit_far : 100 < Position.distance_to_nm { latitude := (0.01 : ℝ), longitude := (0 : ℝ) }
    (calculate_median_position ((bufferTen.recentWindow 9000).map PositionSample.position)) *
      1852 := by
  rw [c7wit_window, median_replicate 10 (by norm_num)]
  rw [distance_m_same_lon 0.01 0 0
      (by rw [show (0:ℝ) - 0.01 = -0.01 by ring,
              abs_of_nonpos (by norm_num : (-0.01:ℝ) ≤ 0)]; norm_num)]
  rw [show (0:ℝ) - 0.01 = -0.01 by ring,
      abs_of_nonpos (by norm_num : (-0.01:ℝ) ≤ 0)]
  have := Real.pi_gt_three
  nlinarith

lemma c7cex_prefix_window : (outlierPrefix.recentWindow 15000).map PositionSample.position =
    List.replicate 5 (⟨0, 0⟩ : Position) := rfl

lemma c7cex_far : 100 < Position.distance_to_nm { latitude := (1 : ℝ), longitude := (0 : ℝ) }
    (calculate_median_position ((outlierPrefix.recentWindow 15000).map PositionSample.position)) *
      1852 := by
  rw [c7cex_prefix_window, median_replicate 5 (by norm_num)]
  rw [distance_m_same_lon 1 0 0
      (by rw [show (0:ℝ) - 1 = -1 by ring,
              abs_of_nonpos (by norm_num : (-1:ℝ) ≤ 0)]; norm_num)]
  rw [show (0:ℝ) - 1 = -1 by ring,
      abs_of_nonpos (by norm_num : (-1:ℝ) ≤ 0)]
  have := Real.pi_gt_three
  nlinarith

/-- C7 (amended): the bootstrap exception is keyed to the 10-second validation
window, not to the session's accepted-sample count: a candidate is accepted
unconditionally whenever that window holds fewer than 10 samples (no matter how
many samples were accepted before); with at least 10 window samples it is accepted
iff its haversine distance from the component-wise median of the window is at most
100 m (the boundary value included), and rejected — monitor unchanged — iff the
distance exceeds 100 m. -/
theorem c7_median_gate_windowed (m : VesselMonitor) (now : ℤ) (msg : PositionRapidUpdate) :
    ((m.recentWindow now).length < 10 →
        m.process_position now msg = m.accepted_push now msg) ∧
    (10 ≤ (m.recentWindow now).length →
      (Position.distance_to_nm { latitude := msg.latitude, longitude := msg.longitude }
          (calculate_median_position ((m.recentWindow now).map PositionSample.position)) *
            1852 ≤ 100 →
        m.process_position now msg = m.accepted_push now msg) ∧
      (100 < Position.distance_to_nm { latitude := msg.latitude, longitude := msg.longitude }
          (calculate_median_position ((m.recentWindow now).map PositionSample.position)) *
            1852 →
        m.process_position now msg = m)) :=
  ⟨process_position_bootstrap m now msg, process_position_validated m now msg⟩

/-- Counterexample for C7 as stated: ten samples accepted at the origin during
bootstrap, then at instant 15000 — when only five of them remain inside the
10-second validation window — a candidate a full degree of latitude (≈ 111 km)
away is accepted as the session's 11th sample, although it lies far more than
100 m from the component-wise median of the preceding window; bootstrap acceptance
did not end at the 10th accepted sample. -/
theorem c7_counterexample :
    outlierRun.positions.length = 11 ∧
    (outlierRun.positions.getLastD { position := ⟨0, 0⟩, timestamp := 0 }).position.latitude = 1 ∧
    (outlierPrefix.recentWindow 15000).length = 5 ∧
    100 < Position.distance_to_nm { latitude := (1 : ℝ), longitude := (0 : ℝ) }
        (calculate_median_position
          ((outlierPrefix.recentWindow 15000).map PositionSample.position)) * 1852 :=
  ⟨rfl, rfl, rfl, c7cex_far⟩

/-- Witness for C7 (amended): bootstrap acceptance on an empty window, boundary
acceptance at ≈ 55 m from the median of ten window samples, and rejection at
≈ 1.1 km. -/
theorem c7_median_gate_windowed_witness :
    ((VesselMonitor.new 0).process_position 0 posMsgZero =
        (VesselMonitor.new 0).accepted_push 0 posMsgZero) ∧
    (bufferTen.process_position 9000 { pgn := 129025, latitude := 0.0005, longitude := 0 } =
        bufferTen.accepted_push 9000 { pgn := 129025, latitude := 0.0005, longitude := 0 }) ∧
    (bufferTen.process_position 9000 { pgn := 129025, latitude := 0.01, longitude := 0 } =
        bufferTen) :=
  ⟨(c7_median_gate_windowed (VesselMonitor.new 0) 0 posMsgZero).1 (by decide),
   ((c7_median_gate_windowed bufferTen 9000
       { pgn := 129025, latitude := 0.0005, longitude := 0 }).2 (by decide)).1 c7wit_near,
   ((c7_median_gate_windowed bufferTen 9000
       { pgn := 129025, latitude := 0.01, longitude := 0 }).2 (by decide)).2 c7wit_far⟩

/-! ### Claim C6 -/

lemma process_subsequent (r : N2kStreamReader) (pgn source : ℕ) (buf : FastPacketBuffer)
    (counter : ℕ) (payload : List ℕ)
    (hpgn : is_fast_packet_pgn pgn = true)
    (hr : r.fast_packet_buffers (pgn, source) = some buf)
    (hc1 : 1 ≤ counter) (hc2 : counter ≤ 31)
    (hlen : payload.length = 7) :
    r.process_frame pgn source (counter :: payload) =
      (if (buf.add_frame payload).is_complete then
        (some { pgn := pgn, source := source, is_fast_packet := true,
                data := (buf.add_frame payload).get_complete_data },
         ⟨mapRemove r.fast_packet_buffers (pgn, source)⟩)
      else (none, ⟨mapInsert r.fast_packet_buffers (pgn, source) (buf.add_frame payload)⟩)) := by
  have hflen : (counter :: payload).length = 8 := by simp [hlen]
  have hfirst : FastPacket.is_first (counter :: payload) = false := by
    simp only [FastPacket.is_first, List.getD_cons_zero]
    have hmod : counter % 32 = counter := Nat.mod_eq_of_lt (by omega)
    rw [hmod]
    simp only [beq_eq_false_iff_ne, ne_eq]
    omega
  rw [N2kStreamReader.process_frame, if_pos (by simp [hpgn, hflen])]
  rw [N2kStreamReader.process_fast_packet]
  rw [hfirst]
  simp only [Bool.false_eq_true, if_false, hr]
  have hdata : FastPacket.fpData (counter :: payload) = payload := by
    simp [FastPacket.fpData, hfirst]
  rw [hdata]

lemma feedRest_emits : ∀ (n : ℕ) (rest : List ℕ), rest.length ≤ n → rest ≠ [] →
    ∀ (r : N2kStreamReader) (buf : FastPacketBuffer) (counter pgn source : ℕ),
    is_fast_packet_pgn pgn = true →
    r.fast_packet_buffers (pgn, source) = some buf →
    buf.expected_frames = buf.frames.length + (rest.length + 6) / 7 →
    1 ≤ counter → counter + (rest.length + 6) / 7 ≤ 32 →
    (feedFrames r pgn source (restFrames counter rest)).1 =
      [{ pgn := pgn, source := source, is_fast_packet := true,
         data := (buf.frames.flatten ++ padTo (7 * ((rest.length + 6) / 7)) rest).take
           buf.total_len }] := by
  intro n
  induction n with
  | zero =>
      intro rest hle hne
      exact absurd (List.length_eq_zero.mp (Nat.le_zero.mp hle)) hne
  | succ n ih =>
      rintro (_ | ⟨b, bs⟩) hle hne r buf counter pgn source hpgn hr hexp hc1 hc2
      · exact absurd rfl hne
      · simp only [List.length_cons] at hle hexp hc2 ⊢
        rw [restFrames]
        have hcle : counter ≤ 31 := by omega
        have hpay : (padTo 7 (b :: bs.take 6)).length = 7 :=
          padTo_length (by simp only [List.length_cons, List.length_take]; omega)
        rw [feedFrames]
        rw [show List.take 7 (b :: bs) = b :: List.take 6 bs from rfl]
        rw [process_subsequent r pgn source buf counter (padTo 7 (b :: bs.take 6))
          hpgn hr hc1 hcle hpay]
        by_cases hshort : bs.length + 1 ≤ 7
        · -- final frame: the buffer completes
          have hkeq : (bs.length + 1 + 6) / 7 = 1 := by omega
          have hcomp : (buf.add_frame (padTo 7 (b :: bs.take 6))).is_complete = true := by
            simp [FastPacketBuffer.is_complete, FastPacketBuffer.add_frame, hexp]
            omega
          rw [if_pos hcomp]
          have hdrop : bs.drop 6 = [] := by
            rw [List.drop_eq_nil_iff]
            omega
          rw [hdrop]
          rw [restFrames]
          rw [feedFrames]
          simp only [Option.toList_some, List.append_nil, List.nil_append]
          have htake : bs.take 6 = bs := List.take_of_length_le (by omega)
          rw [hkeq]
          simp only [FastPacketBuffer.get_complete_data, FastPacketBuffer.add_frame]
          rw [List.flatten_append]
          simp [htake, padTo]
        · -- intermediate frame: insert and recurse
          push_neg at hshort
          have hncomp : (buf.add_frame (padTo 7 (b :: bs.take 6))).is_complete = false := by
            simp [FastPacketBuffer.is_complete, FastPacketBuffer.add_frame, hexp]
            omega
          rw [if_neg (by simp [hncomp])]
          have hlen' : (bs.drop 6).length ≤ n := by
            simp only [List.length_drop]
            omega
          have hne' : bs.drop 6 ≠ [] := by
            rw [Ne, List.drop_eq_nil_iff]
            omega
          have hrec := ih (bs.drop 6) hlen' hne'
            ⟨mapInsert r.fast_packet_buffers (pgn, source)
              (buf.add_frame (padTo 7 (b :: bs.take 6)))⟩
            (buf.add_frame (padTo 7 (b :: bs.take 6)))
            (counter + 1) pgn source hpgn (by simp [mapInsert])
            (by
              simp only [FastPacketBuffer.add_frame, List.length_append, List.length_cons,
                List.length_drop, List.length_nil]
              omega)
            (by omega)
            (by
              simp only [List.length_drop]
              omega)
          rw [hrec]
          simp only [Option.toList_none, List.nil_append]
          congr 1
          congr 1
          -- data equality
          have htk : padTo 7 (b :: bs.take 6) = b :: bs.take 6 :=
            padTo_eq_self (by simp only [List.length_cons, List.length_take]; omega)
          simp only [FastPacketBuffer.add_frame]
          rw [List.flatten_append]
          simp only [List.flatten_cons, List.flatten_nil, List.append_nil]
          rw [htk, List.append_assoc]
          congr 1
          simp only [padTo, List.length_drop, List.length_cons]
          rw [show 7 * ((bs.length - 6 + 6) / 7) - (bs.length - 6)
              = 7 * ((bs.length + 1 + 6) / 7) - (bs.length + 1) from by omega]
          rw [← List.append_assoc (b :: List.take 6 bs) (List.drop 6 bs)]
          rw [List.cons_append, List.take_append_drop]

lemma restFrames_length : ∀ (n : ℕ) (rest : List ℕ), rest.length ≤ n → ∀ counter : ℕ,
    (restFrames counter rest).length = (rest.length + 6) / 7 := by
  intro n
  induction n with
  | zero =>
      intro rest hle counter
      have hnil : rest = [] := List.length_eq_zero.mp (Nat.le_zero.mp hle)
      subst hnil
      rw [restFrames]
      rfl
  | succ n ih =>
      rintro (_ | ⟨b, bs⟩) hle counter
      · rw [restFrames]
        rfl
      · rw [restFrames]
        simp only [List.length_cons] at hle ⊢
        by_cases hshort : bs.length ≤ 6
        · have hdrop : bs.drop 6 = [] := by
            rw [List.drop_eq_nil_iff]; omega
          rw [hdrop, restFrames]
          simp only [List.length_nil]
          omega
        · rw [ih (bs.drop 6) (by simp only [List.length_drop]; omega) (counter + 1)]
          simp only [List.length_drop]
          omega

/-- C6: the fast-packet roundtrip.  For every payload of at most 223 bytes, split
per spec §4.3 (first frame: counter 0, total-length byte, 6 payload bytes;
follow-on frames: counter byte plus 7 payload bytes) and fed in order to a fresh
reassembler under a fast-packet PGN, exactly one completed message is emitted —
by the final frame — whose assembled data equals the original payload
(concatenation truncated to the declared total length), and the number of frames
is 1 when the total is ≤ 6 and `1 + ⌈(total−6)/7⌉` otherwise. -/
theorem c6_fast_packet_roundtrip (s : List ℕ) (pgn source : ℕ)
    (hpgn : is_fast_packet_pgn pgn = true) (hlen : s.length ≤ 223) :
    (feedFrames N2kStreamReader.new pgn source (splitFrames s)).1 =
      [{ pgn := pgn, source := source, is_fast_packet := true, data := s }] ∧
    (splitFrames s).length = if s.length ≤ 6 then 1 else 1 + (s.length - 6 + 6) / 7 := by
  constructor
  · rw [splitFrames, feedFrames]
    have hfl : (0 :: s.length :: padTo 6 (s.take 6)).length = 8 := by
      have h6 : (padTo 6 (s.take 6)).length = 6 :=
        padTo_length (by simp [List.length_take])
      simp [h6]
    rw [N2kStreamReader.process_frame, if_pos (by simp [hpgn, hfl])]
    rw [N2kStreamReader.process_fast_packet]
    have hfirst : FastPacket.is_first (0 :: s.length :: padTo 6 (s.take 6)) = true := by
      simp [FastPacket.is_first]
    rw [hfirst]
    simp only [if_true]
    have htl : FastPacket.total_len (0 :: s.length :: padTo 6 (s.take 6)) = some s.length := by
      simp [FastPacket.total_len, hfirst]
    rw [htl]
    dsimp only
    have hfd : FastPacket.fpData (0 :: s.length :: padTo 6 (s.take 6)) = padTo 6 (s.take 6) := by
      simp [FastPacket.fpData, hfirst]
    rw [hfd]
    by_cases h6 : s.length ≤ 6
    · have hcomp :
          ((FastPacketBuffer.new s.length).add_frame (padTo 6 (s.take 6))).is_complete = true := by
        simp [FastPacketBuffer.is_complete, FastPacketBuffer.add_frame, FastPacketBuffer.new, h6]
      rw [if_pos hcomp]
      have hdrop : s.drop 6 = [] := by
        rw [List.drop_eq_nil_iff]; omega
      rw [hdrop, restFrames, feedFrames]
      simp only [Option.toList_some, List.append_nil, List.nil_append, List.singleton_append]
      have htks : s.take 6 = s := List.take_of_length_le h6
      simp only [FastPacketBuffer.get_complete_data, FastPacketBuffer.add_frame,
        FastPacketBuffer.new, List.nil_append, List.flatten_cons, List.flatten_nil,
        List.append_nil, htks, padTo]
      rw [List.take_left' rfl]
    · push_neg at h6
      have hncomp :
          ((FastPacketBuffer.new s.length).add_frame (padTo 6 (s.take 6))).is_complete = false := by
        simp [FastPacketBuffer.is_complete, FastPacketBuffer.add_frame, FastPacketBuffer.new]
        rw [if_neg (by omega)]
        omega
      rw [if_neg (by simp [hncomp])]
      have htk6 : padTo 6 (s.take 6) = s.take 6 :=
        padTo_eq_self (by simp [List.length_take]; omega)
      have happ := feedRest_emits (s.drop 6).length (s.drop 6) le_rfl
        (by rw [Ne, List.drop_eq_nil_iff]; omega)
        ⟨mapInsert N2kStreamReader.new.fast_packet_buffers (pgn, source)
          ((FastPacketBuffer.new s.length).add_frame (padTo 6 (s.take 6)))⟩
        ((FastPacketBuffer.new s.length).add_frame (padTo 6 (s.take 6)))
        1 pgn source hpgn (by simp [mapInsert])
        (by
          simp only [FastPacketBuffer.add_frame, FastPacketBuffer.new, List.length_append,
            List.length_cons, List.length_nil, List.length_drop]
          try (rw [if_neg (by omega)])
          try omega)
        le_rfl
        (by simp only [List.length_drop]; omega)
      rw [happ]
      simp only [Option.toList_none, List.nil_append]
      congr 1
      congr 1
      simp only [FastPacketBuffer.add_frame, FastPacketBuffer.new, List.nil_append,
        List.flatten_cons, List.flatten_nil, List.append_nil, htk6, List.length_drop]
      simp only [padTo, List.length_drop]
      rw [← List.append_assoc (s.take 6) (s.drop 6)]
      rw [List.take_append_drop]
      rw [List.take_left' rfl]
  · rw [splitFrames, List.length_cons,
        restFrames_length (s.drop 6).length (s.drop 6) le_rfl 1]
    simp only [List.length_drop]
    by_cases h6 : s.length ≤ 6
    · rw [if_pos h6]
      omega
    · rw [if_neg h6]
      omega

/-- Witness for C6: a 10-byte payload split into two frames for PGN 129029,
source 7, reassembles to itself. -/
theorem c6_fast_packet_roundtrip_witness :
    (feedFrames N2kStreamReader.new 129029 7 (splitFrames [1, 2, 3, 4, 5, 6, 7, 8, 9, 10])).1 =
      [{ pgn := 129029, source := 7, is_fast_packet := true,
         data := [1, 2, 3, 4, 5, 6, 7, 8, 9, 10] }] :=
  (c6_fast_packet_roundtrip [1, 2, 3, 4, 5, 6, 7, 8, 9, 10] 129029 7 (by decide) (by decide)).1
